import Mathlib

/-!
Verification of the AI-Bridge orchestration core against its specification.

The definitions below are a shallow embedding of the Python sources:
  - src/backend/workflow.py            (WorkflowEngine and its data model)
  - src/backend/process_communicator.py (silent-period response detection)
  - src/backend/communication.py       (MessageBus, transformation engine,
                                        conversation state manager)

Conventions of the embedding:
  - wall-clock instants (datetime.now values) are natural numbers of
    milliseconds, threaded through each operation as an explicit `now`
    argument; one Python call may read the clock several times, the model
    uses the single `now` for all of them;
  - Python dicts are insertion-ordered association lists: `alGet` reads the
    first binding of a key, `alSet` replaces the value in place or appends a
    new binding at the end, exactly the visible behaviour of dict reads,
    assignment and update;
  - fallible Python code that catches its own exceptions and returns a
    fallback is modelled as the corresponding total function.
-/

/-! ## Association lists (Python dict model) -/

def alGet {α β : Type} [DecidableEq α] : List (α × β) → α → Option β
  | [], _ => none
  | (k', v) :: rest, k => if k' = k then some v else alGet rest k

def alSet {α β : Type} [DecidableEq α] : List (α × β) → α → β → List (α × β)
  | [], k, v => [(k, v)]
  | (k', v') :: rest, k, v =>
      if k' = k then (k', v) :: rest else (k', v') :: alSet rest k v

def alHas {α β : Type} [DecidableEq α] (l : List (α × β)) (k : α) : Bool :=
  (alGet l k).isSome

theorem alGet_alSet_same {α β : Type} [DecidableEq α]
    (l : List (α × β)) (k : α) (v : β) : alGet (alSet l k v) k = some v := by
  induction l with
  | nil => simp [alSet, alGet]
  | cons hd tl ih =>
      obtain ⟨k', v'⟩ := hd
      by_cases h : k' = k
      · simp [alSet, alGet, h]
      · simp [alSet, alGet, h, ih]

theorem alGet_alSet_other {α β : Type} [DecidableEq α]
    (l : List (α × β)) (k k' : α) (v : β) (h : k' ≠ k) :
    alGet (alSet l k v) k' = alGet l k' := by
  have h' : k ≠ k' := Ne.symm h
  induction l with
  | nil => simp [alSet, alGet, h']
  | cons hd tl ih =>
      obtain ⟨k₀, v₀⟩ := hd
      by_cases h₀ : k₀ = k
      · subst h₀
        simp [alSet, alGet, h']
      · by_cases h₁ : k₀ = k'
        · subst h₁
          simp [alSet, alGet, h₀]
        · simp [alSet, alGet, h₀, h₁, ih]

theorem alGet_append_left {α β : Type} [DecidableEq α]
    (l₁ l₂ : List (α × β)) (k : α) (v : β) (h : alGet l₁ k = some v) :
    alGet (l₁ ++ l₂) k = some v := by
  induction l₁ with
  | nil => simp [alGet] at h
  | cons hd tl ih =>
      obtain ⟨k₀, v₀⟩ := hd
      by_cases h₀ : k₀ = k
      · simp only [alGet, if_pos h₀] at h
        simp [alGet, h₀, h]
      · simp only [alGet, if_neg h₀] at h
        simp [alGet, h₀, ih h]

/-! ## Workflow engine data model (src/backend/workflow.py) -/

inductive WorkflowPhase where
  | initialization
  | planning
  | implementation
  | review
  | iteration
  | completed
  | failed
  | paused
deriving DecidableEq, Repr

inductive WorkflowState where
  | idle
  | running
  | waiting
  | blocked
  | completed
  | failed
  | paused
deriving DecidableEq, Repr

inductive TaskStatus where
  | pending
  | in_progress
  | completed
  | failed
  | blocked
  | skipped
deriving DecidableEq, Repr

structure WorkflowTask where
  id : String
  name : String
  description : String
  assigned_agent : String
  dependencies : List String
  status : TaskStatus
  created_at : Nat
  started_at : Option Nat := none
  completed_at : Option Nat := none
  output : Option String := none
  error_message : Option String := none
deriving DecidableEq, Repr

/-- `WorkflowPhaseInfo` of workflow.py.  In Python the `tasks` list holds
references to the same task objects as `WorkflowExecution.all_tasks`; the
embedding keeps the task ids here and the task records in `all_tasks`, which
is the authoritative store, so that sharing is preserved. -/
structure WorkflowPhaseInfo where
  phase : WorkflowPhase
  started_at : Nat
  completed_at : Option Nat := none
  task_ids : List String := []
  output : Option String := none
  success : Bool := false
deriving DecidableEq, Repr

/-- `WorkflowExecution` of workflow.py.  `completion_criteria` (a dict of
filesystem checks) is not read by any of the operations modelled here and is
omitted. -/
structure WorkflowExecution where
  id : String
  objective : String
  workspace_path : String
  state : WorkflowState
  current_phase : WorkflowPhase
  created_at : Nat
  started_at : Option Nat := none
  completed_at : Option Nat := none
  phases : List (WorkflowPhase × WorkflowPhaseInfo) := []
  all_tasks : List WorkflowTask := []
  iteration_count : Nat := 0
  max_iterations : Nat := 10
  error_log : List String := []
deriving DecidableEq, Repr

def mkPhaseInfo (p : WorkflowPhase) (now : Nat) : WorkflowPhaseInfo :=
  { phase := p, started_at := now }

def setCurrentPhase (w : WorkflowExecution) (p : WorkflowPhase) :
    WorkflowExecution :=
  { w with current_phase := p }

def incIterationCount (w : WorkflowExecution) : WorkflowExecution :=
  { w with iteration_count := w.iteration_count + 1 }

/-- The task update `_complete_workflow` performs on every task:
Pending becomes Skipped, InProgress becomes Completed with the completion
time stamped, every other status is left alone. -/
def completeTaskUpdate (now : Nat) (t : WorkflowTask) : WorkflowTask :=
  if t.status = TaskStatus.pending then { t with status := TaskStatus.skipped }
  else if t.status = TaskStatus.in_progress then
    { t with status := TaskStatus.completed, completed_at := some now }
  else t

/-- `WorkflowEngine._complete_workflow` (workflow.py, lines 568-593): sets the
overall state to Completed, stamps the completion time and rewrites the task
statuses.  The metrics update and the report file it also produces are
engine-level side effects that do not touch the `WorkflowExecution` and are
not modelled. -/
def complete_workflow (w : WorkflowExecution) (now : Nat) : WorkflowExecution :=
  { w with
      state := WorkflowState.completed
      completed_at := some now
      all_tasks := w.all_tasks.map (completeTaskUpdate now) }

/-- First half of `advance_phase`: close out the current phase if it is still
open (`completed_at` unset), stamping the completion time and setting the
success flag to True. -/
def closeCurrentPhase (w : WorkflowExecution) (now : Nat) : WorkflowExecution :=
  match alGet w.phases w.current_phase with
  | some info =>
      if info.completed_at = none then
        let closed :=
          { info with completed_at := some now, success := true }
        { w with phases := alSet w.phases w.current_phase closed }
      else w
  | none => w

/-- Second half of `advance_phase`: create the next phase record if absent,
otherwise reset its start time (re-entering a phase). -/
def openNextPhase (w : WorkflowExecution) (next : WorkflowPhase) (now : Nat) :
    WorkflowExecution :=
  match alGet w.phases next with
  | none => { w with phases := w.phases ++ [(next, mkPhaseInfo next now)] }
  | some info =>
      let reset := { info with started_at := now }
      { w with phases := alSet w.phases next reset }

/-- The Iteration special case of `advance_phase`: increment the counter,
loop back to Implementation while under the maximum, otherwise complete. -/
def iterationStep (w2 : WorkflowExecution) (now : Nat) : WorkflowExecution :=
  if (incIterationCount w2).iteration_count <
      (incIterationCount w2).max_iterations then
    setCurrentPhase (incIterationCount w2) WorkflowPhase.implementation
  else complete_workflow (incIterationCount w2) now

/-- The body of `WorkflowEngine.advance_phase` (workflow.py, lines 513-566)
once a workflow exists: close the current phase, set and open the next one,
then special-case Completed and Iteration. -/
def advanceStep (w : WorkflowExecution) (next : WorkflowPhase) (now : Nat) :
    WorkflowExecution :=
  if next = WorkflowPhase.completed then
    complete_workflow
      (openNextPhase (setCurrentPhase (closeCurrentPhase w now) next) next now)
      now
  else if next = WorkflowPhase.iteration then
    iterationStep
      (openNextPhase (setCurrentPhase (closeCurrentPhase w now) next) next now)
      now
  else openNextPhase (setCurrentPhase (closeCurrentPhase w now) next) next now

/-- `WorkflowEngine.advance_phase` acting on the engine's `current_workflow`
(None gives False with no change). -/
def advance_phase (cw : Option WorkflowExecution) (next : WorkflowPhase)
    (now : Nat) : Bool × Option WorkflowExecution :=
  match cw with
  | none => (false, none)
  | some w => (true, some (advanceStep w next now))

/-! Frame lemmas: which fields each step of `advance_phase` leaves alone. -/

theorem closeCurrentPhase_frame (w : WorkflowExecution) (now : Nat) :
    (closeCurrentPhase w now).all_tasks = w.all_tasks ∧
    (closeCurrentPhase w now).iteration_count = w.iteration_count ∧
    (closeCurrentPhase w now).max_iterations = w.max_iterations ∧
    (closeCurrentPhase w now).state = w.state ∧
    (closeCurrentPhase w now).current_phase = w.current_phase := by
  unfold closeCurrentPhase
  split
  · split
    · exact ⟨rfl, rfl, rfl, rfl, rfl⟩
    · exact ⟨rfl, rfl, rfl, rfl, rfl⟩
  · exact ⟨rfl, rfl, rfl, rfl, rfl⟩

theorem openNextPhase_frame (w : WorkflowExecution) (next : WorkflowPhase)
    (now : Nat) :
    (openNextPhase w next now).all_tasks = w.all_tasks ∧
    (openNextPhase w next now).iteration_count = w.iteration_count ∧
    (openNextPhase w next now).max_iterations = w.max_iterations ∧
    (openNextPhase w next now).state = w.state ∧
    (openNextPhase w next now).current_phase = w.current_phase := by
  unfold openNextPhase
  split
  · exact ⟨rfl, rfl, rfl, rfl, rfl⟩
  · exact ⟨rfl, rfl, rfl, rfl, rfl⟩

theorem complete_workflow_phases (w : WorkflowExecution) (now : Nat) :
    (complete_workflow w now).phases = w.phases := rfl

theorem iterationStep_phases (w2 : WorkflowExecution) (now : Nat) :
    (iterationStep w2 now).phases = w2.phases := by
  unfold iterationStep
  split
  · rfl
  · rfl

theorem advanceStep_phases (w : WorkflowExecution) (next : WorkflowPhase)
    (now : Nat) :
    (advanceStep w next now).phases =
      (openNextPhase (setCurrentPhase (closeCurrentPhase w now) next) next
        now).phases := by
  unfold advanceStep
  split
  · rfl
  · split
    · exact iterationStep_phases _ _
    · rfl

theorem openNextPhase_phases_none {w : WorkflowExecution}
    {next : WorkflowPhase} (now : Nat) (h : alGet w.phases next = none) :
    (openNextPhase w next now).phases =
      w.phases ++ [(next, mkPhaseInfo next now)] := by
  unfold openNextPhase
  rw [h]

theorem openNextPhase_phases_some {w : WorkflowExecution}
    {next : WorkflowPhase} {info : WorkflowPhaseInfo} (now : Nat)
    (h : alGet w.phases next = some info) :
    (openNextPhase w next now).phases =
      alSet w.phases next { info with started_at := now } := by
  unfold openNextPhase
  rw [h]

theorem forall₂_map_self {α β : Type} (R : α → β → Prop) (f : α → β)
    (l : List α) (h : ∀ a, R a (f a)) : List.Forall₂ R l (l.map f) := by
  induction l with
  | nil => simp
  | cons hd tl ih => exact List.Forall₂.cons (h hd) ih

/-- C7: advancing the workflow phase to Completed transitions every Pending
task to Skipped and every InProgress task to Completed with its completion
time stamped, and leaves tasks in any other status untouched. -/
theorem advance_to_completed_marks_tasks (w : WorkflowExecution) (now : Nat) :
    ∃ w', (advance_phase (some w) WorkflowPhase.completed now).2 = some w' ∧
      List.Forall₂ (fun t t' =>
          (t.status = TaskStatus.pending →
            t' = { t with status := TaskStatus.skipped }) ∧
          (t.status = TaskStatus.in_progress →
            t' = { t with status := TaskStatus.completed,
                          completed_at := some now }) ∧
          (t.status ≠ TaskStatus.pending → t.status ≠ TaskStatus.in_progress →
            t' = t))
        w.all_tasks w'.all_tasks := by
  refine ⟨_, rfl, ?_⟩
  have htasks : (advanceStep w WorkflowPhase.completed now).all_tasks =
      w.all_tasks.map (completeTaskUpdate now) := by
    unfold advanceStep
    rw [if_pos rfl]
    show (openNextPhase (setCurrentPhase (closeCurrentPhase w now)
        WorkflowPhase.completed) WorkflowPhase.completed now).all_tasks.map
        (completeTaskUpdate now) = _
    rw [(openNextPhase_frame _ _ _).1]
    show (closeCurrentPhase w now).all_tasks.map (completeTaskUpdate now) = _
    rw [(closeCurrentPhase_frame _ _).1]
  rw [htasks]
  refine forall₂_map_self _ _ _ ?_
  intro t
  refine ⟨?_, ?_, ?_⟩
  · intro h; simp [completeTaskUpdate, h]
  · intro h; simp [completeTaskUpdate, h]
  · intro h₁ h₂; simp [completeTaskUpdate, h₁, h₂]

/-- A concrete workflow used to exercise the iteration-limit behaviour:
one open Review phase, `max_iterations = 1`. -/
def wIterDemo : WorkflowExecution :=
  { id := "wf-demo"
    objective := "demo objective"
    workspace_path := "ws"
    state := WorkflowState.running
    current_phase := WorkflowPhase.review
    created_at := 0
    started_at := some 0
    phases := [(WorkflowPhase.review, mkPhaseInfo WorkflowPhase.review 0)]
    all_tasks := []
    iteration_count := 0
    max_iterations := 1 }

/-- C2 counterexample: with `max_iterations = 1`, the first advance to
Iteration reaches the maximum yet leaves `current_phase = Iteration` (only the
overall state becomes Completed, the phase is not forced to Completed), and a
second advance to Iteration pushes `iteration_count` to 2, strictly above
`max_iterations`. -/
theorem iteration_count_can_exceed_max :
    (((advance_phase (some wIterDemo) WorkflowPhase.iteration 10).2.map
        (fun w => (w.current_phase, w.state))) =
      some (WorkflowPhase.iteration, WorkflowState.completed)) ∧
    (((advance_phase
        ((advance_phase (some wIterDemo) WorkflowPhase.iteration 10).2)
        WorkflowPhase.iteration 20).2.map
        (fun w => (w.iteration_count, w.max_iterations))) = some (2, 1)) ∧
    ¬ (2 ≤ 1) := by
  refine ⟨rfl, rfl, by decide⟩

/-- C2 (amended): `advance_phase(Iteration)` increments the iteration counter
unconditionally; while the incremented counter is below `max_iterations` the
phase loops back to Implementation with the overall state untouched, and once
it reaches `max_iterations` the workflow is completed by `_complete_workflow`,
which sets the overall state (not the current phase) to Completed.  The
counter itself is not clamped, so it exceeds `max_iterations` exactly when
callers keep advancing to Iteration after completion. -/
theorem advance_iteration_behavior (w : WorkflowExecution) (now : Nat) :
    ∃ w', (advance_phase (some w) WorkflowPhase.iteration now).2 = some w' ∧
      w'.iteration_count = w.iteration_count + 1 ∧
      (w.iteration_count + 1 < w.max_iterations →
        w'.current_phase = WorkflowPhase.implementation ∧ w'.state = w.state) ∧
      (w.max_iterations ≤ w.iteration_count + 1 →
        w'.state = WorkflowState.completed ∧
        w'.current_phase = WorkflowPhase.iteration) := by
  refine ⟨_, rfl, ?_⟩
  have hcl := closeCurrentPhase_frame w now
  have hop := openNextPhase_frame
    (setCurrentPhase (closeCurrentPhase w now) WorkflowPhase.iteration)
    WorkflowPhase.iteration now
  set w2 := openNextPhase (setCurrentPhase (closeCurrentPhase w now)
    WorkflowPhase.iteration) WorkflowPhase.iteration now with hw2
  have hic : w2.iteration_count = w.iteration_count := by
    rw [hop.2.1]; exact hcl.2.1
  have hmx : w2.max_iterations = w.max_iterations := by
    rw [hop.2.2.1]; exact hcl.2.2.1
  have hst : w2.state = w.state := by
    rw [hop.2.2.2.1]; exact hcl.2.2.2.1
  have hcp : w2.current_phase = WorkflowPhase.iteration := hop.2.2.2.2
  have hstep : advanceStep w WorkflowPhase.iteration now = iterationStep w2 now := by
    unfold advanceStep
    rw [if_neg (by decide : ¬ WorkflowPhase.iteration = WorkflowPhase.completed),
        if_pos rfl]
  rw [hstep]
  unfold iterationStep
  by_cases hlt : w.iteration_count + 1 < w.max_iterations
  · rw [if_pos (show (incIterationCount w2).iteration_count <
        (incIterationCount w2).max_iterations from by
      show w2.iteration_count + 1 < w2.max_iterations
      rw [hic, hmx]; exact hlt)]
    refine ⟨?_, fun _ => ⟨rfl, ?_⟩, fun hge => absurd hlt (by omega)⟩
    · show (incIterationCount w2).iteration_count = _
      show w2.iteration_count + 1 = _
      rw [hic]
    · show (incIterationCount w2).state = w.state
      exact hst
  · rw [if_neg (show ¬ ((incIterationCount w2).iteration_count <
        (incIterationCount w2).max_iterations) from fun hc => hlt (by
      have hc' : w2.iteration_count + 1 < w2.max_iterations := hc
      rwa [hic, hmx] at hc'))]
    refine ⟨?_, fun hlt' => absurd hlt' hlt, fun _ => ⟨rfl, ?_⟩⟩
    · show (incIterationCount w2).iteration_count = _
      show w2.iteration_count + 1 = _
      rw [hic]
    · show (incIterationCount w2).current_phase = WorkflowPhase.iteration
      exact hcp

/-- C10: whenever `advance_phase` closes out the currently open phase (its
`completed_at` is unset), it stamps the completion time and sets the success
flag to True, whatever phase is being advanced to, Failed and Paused
included; so a phase closed out this way never records success = False. -/
theorem advance_phase_closes_with_success (w : WorkflowExecution)
    (next : WorkflowPhase) (now : Nat) (info : WorkflowPhaseInfo)
    (hlook : alGet w.phases w.current_phase = some info)
    (hopen : info.completed_at = none) :
    ∃ w' info', (advance_phase (some w) next now).2 = some w' ∧
      alGet w'.phases w.current_phase = some info' ∧
      info'.success = true ∧ info'.completed_at = some now := by
  have hclosed : (closeCurrentPhase w now).phases =
      alSet w.phases w.current_phase
        { info with completed_at := some now, success := true } := by
    unfold closeCurrentPhase
    rw [hlook]
    simp [hopen]
  have hget1 : alGet (closeCurrentPhase w now).phases w.current_phase =
      some { info with completed_at := some now, success := true } := by
    rw [hclosed]; exact alGet_alSet_same _ _ _
  set v := setCurrentPhase (closeCurrentPhase w now) next with hv
  have hvp : v.phases = (closeCurrentPhase w now).phases := rfl
  have hmain : ∃ info', alGet (openNextPhase v next now).phases w.current_phase
      = some info' ∧ info'.success = true ∧ info'.completed_at = some now := by
    rcases hAt : alGet v.phases next with _ | info₂
    · rw [openNextPhase_phases_none now hAt]
      exact ⟨{ info with completed_at := some now, success := true },
        alGet_append_left _ _ _ _ (by rw [hvp]; exact hget1), rfl, rfl⟩
    · rw [openNextPhase_phases_some now hAt]
      by_cases hne : next = w.current_phase
      · subst hne
        have hinfo : info₂ =
            { info with completed_at := some now, success := true } := by
          rw [hvp, hget1] at hAt
          exact (Option.some.inj hAt).symm
        subst hinfo
        exact ⟨_, alGet_alSet_same _ _ _, rfl, rfl⟩
      · refine ⟨{ info with completed_at := some now, success := true },
          ?_, rfl, rfl⟩
        rw [alGet_alSet_other _ _ _ _ (fun hh => hne hh.symm), hvp]
        exact hget1
  obtain ⟨info', hi, hs, hc⟩ := hmain
  refine ⟨advanceStep w next now, info', rfl, ?_, hs, hc⟩
  rw [advanceStep_phases, ← hv]
  exact hi

def infoDemo : WorkflowPhaseInfo := mkPhaseInfo WorkflowPhase.planning 0

def wPhaseDemo : WorkflowExecution :=
  { id := "wf-phase"
    objective := "demo"
    workspace_path := "ws"
    state := WorkflowState.running
    current_phase := WorkflowPhase.planning
    created_at := 0
    phases := [(WorkflowPhase.planning, infoDemo)] }

/-- C10 witness: closing out the open Planning phase while advancing to
Failed still records success = True and the completion time. -/
theorem advance_phase_closes_with_success_witness :
    ∃ w' info',
      (advance_phase (some wPhaseDemo) WorkflowPhase.failed 7).2 = some w' ∧
      alGet w'.phases wPhaseDemo.current_phase = some info' ∧
      info'.success = true ∧ info'.completed_at = some 7 :=
  advance_phase_closes_with_success wPhaseDemo WorkflowPhase.failed 7 infoDemo
    (by decide) rfl

/-! ## Silent-period response detection (src/backend/process_communicator.py)

The external process is modelled by its output schedule: a list of
`(instant, text)` pairs in non-decreasing time order, one per line
`stdout.readline` would deliver, the text already stripped of its newline
(the `.rstrip()` of the source).  A process whose stdout never reaches EOF
never delivers an empty read, so the end of the schedule models a process
that merely stops producing; `readline` then keeps timing out. -/

/-- Truthiness of `line_str.strip()`: strip removes surrounding whitespace,
so the stripped string is non-empty exactly when some character of the line
is not whitespace. -/
def strippedNonEmpty (s : String) : Bool :=
  s.data.any (fun c => ¬ c.isWhitespace)

/-- `ProcessCommunicator._receive_with_silent_period` (lines 272-311).
Each loop iteration awaits `readline` with a 0.1 s (100 ms) timeout:
 - if the next scheduled line arrives within that window it is consumed;
   non-blank lines (the `if line_str.strip()` test) are accumulated and
   reset the last-activity clock, blank lines are discarded;
 - otherwise the poll times out 100 ms later, and only then does the code
   compare the silence so far against `silent_period` and the elapsed time
   against `max_timeout`, returning the accumulated lines on either.
The result pairs the instant at which the loop exits with the accumulated
lines (the instant is the observable return time of the call); `none` means
the fuel ran out while the loop was still running. -/
def receiveSilentLoop (silentMs maxMs : Nat) :
    Nat → List (Nat × String) → Nat → Nat → Nat → List String →
    Option (Nat × List String)
  | 0, _, _, _, _, _ => none
  | fuel + 1, [], start, now, lastOut, acc =>
      if silentMs ≤ (now + 100) - lastOut then some (now + 100, acc)
      else if maxMs ≤ (now + 100) - start then some (now + 100, acc)
      else receiveSilentLoop silentMs maxMs fuel [] start (now + 100) lastOut acc
  | fuel + 1, (t, s) :: rest, start, now, lastOut, acc =>
      if t ≤ now + 100 then
        if strippedNonEmpty s then
          receiveSilentLoop silentMs maxMs fuel rest start (max now t) (max now t)
            (acc ++ [s])
        else
          receiveSilentLoop silentMs maxMs fuel rest start (max now t) lastOut acc
      else
        if silentMs ≤ (now + 100) - lastOut then some (now + 100, acc)
        else if maxMs ≤ (now + 100) - start then some (now + 100, acc)
        else receiveSilentLoop silentMs maxMs fuel ((t, s) :: rest) start
          (now + 100) lastOut acc

/-- Entry point: both `last_output_time` and `start_time` are read from the
clock just before the loop, here instant 0.  The joined string is the value
Python returns. -/
def receive_with_silent_period (silentMs maxMs : Nat)
    (arrivals : List (Nat × String)) (fuel : Nat) : Option (Nat × String) :=
  (receiveSilentLoop silentMs maxMs fuel arrivals 0 0 0 []).map
    (fun r => (r.1, String.intercalate "\n" r.2))

/-- A process that produces one line every 150 ms, well past the 5 s mark:
output never stops while the receive loop runs. -/
def steadyTalker : List (Nat × String) :=
  (List.range 40).map (fun i => (150 * (i + 1), "line"))

/-- A process that produces one line every 100 ms until 6 s: every line lands
inside the 0.1 s poll window, so `readline` never times out while output
flows. -/
def fastTalker : List (Nat × String) :=
  (List.range 60).map (fun i => (100 * (i + 1), "line"))

/-- C3 counterexample: with `silent_period = 2 s` and `max_timeout = 5 s`,
a process that emits a line every 150 ms (and is still due to emit at
5.1 s, after the call returns) makes the receive return at 5.05 s, not at
exactly 5 s: the max-timeout comparison only runs when a 0.1 s poll times
out.  So the accumulated text is not returned at exactly the 5 s
max-timeout. -/
theorem silent_period_not_exactly_max_timeout :
    ((receive_with_silent_period 2000 5000 steadyTalker 200).map Prod.fst =
      some 5050) ∧
    (5050 : Nat) ≠ 5000 ∧
    ((5100, "line") ∈ steadyTalker ∧ 5050 < 5100) := by
  refine ⟨by decide, by decide, by decide, by decide⟩

/-- C3 (amended): the silent-period receive checks the 5 s max-timeout only
when a 0.1 s `readline` poll times out.  A process emitting every 150 ms is
returned from at 5.05 s, the first poll timeout at or after 5 s (never
earlier than 5 s, but not exactly 5 s); a process emitting every 100 ms never
lets a poll time out while output flows, so the max-timeout is not enforced
during production and the call returns only at the first poll timeout after
output stops: 6.1 s for output flowing until 6 s, with all 60 lines (those
past the 5 s mark included) accumulated. -/
theorem silent_period_amended_behavior :
    ((receive_with_silent_period 2000 5000 steadyTalker 200).map Prod.fst =
      some 5050) ∧
    (5000 ≤ 5050) ∧
    ((receive_with_silent_period 2000 5000 fastTalker 200).map Prod.fst =
      some 6100) ∧
    ((receiveSilentLoop 2000 5000 200 fastTalker 0 0 0 []).map
      (fun r => r.2.length) = some 60) ∧
    (5000 < 6100) := by
  refine ⟨by decide, by decide, by decide, by decide, by decide⟩

/-! ## Messaging data model (src/backend/communication.py)

Python strings are manipulated through their character lists so that every
operation reduces inside the kernel: `pyLower` is `str.lower`, `containsSub`
is the `in` operator, `pyStartsWith`/`pyEndsWith` are
`str.startswith`/`str.endswith`, `pyTake` is slicing `[:n]`. -/

def pyLower (s : String) : String := ⟨s.data.map Char.toLower⟩

def containsSub (s sub : String) : Bool :=
  s.data.tails.any (fun t => sub.data.isPrefixOf t)

def pyStartsWith (s pre : String) : Bool := pre.data.isPrefixOf s.data

def pyEndsWith (s suf : String) : Bool := suf.data.isSuffixOf s.data

def pyTake (s : String) (n : Nat) : String := ⟨s.data.take n⟩

inductive MessageType where
  | task
  | response
  | coordination
  | cross_communication
  | implementation
  | review
  | conflict_resolution
  | status_update
  | error
  | system
  | heartbeat
  | autonomous_request
  | autonomous_response
  | context_enriched
  | handoff
  | progress_update
deriving DecidableEq, Repr

/-- The `.value` of each MessageType member. -/
def MessageType.value : MessageType → String
  | .task => "task"
  | .response => "response"
  | .coordination => "coordination"
  | .cross_communication => "cross_communication"
  | .implementation => "implementation"
  | .review => "review"
  | .conflict_resolution => "conflict_resolution"
  | .status_update => "status_update"
  | .error => "error"
  | .system => "system"
  | .heartbeat => "heartbeat"
  | .autonomous_request => "autonomous_request"
  | .autonomous_response => "autonomous_response"
  | .context_enriched => "context_enriched"
  | .handoff => "handoff"
  | .progress_update => "progress_update"

/-- `MessageType(string)`: the member with that value, None for a ValueError. -/
def MessageType.fromValue : String → Option MessageType
  | "task" => some .task
  | "response" => some .response
  | "coordination" => some .coordination
  | "cross_communication" => some .cross_communication
  | "implementation" => some .implementation
  | "review" => some .review
  | "conflict_resolution" => some .conflict_resolution
  | "status_update" => some .status_update
  | "error" => some .error
  | "system" => some .system
  | "heartbeat" => some .heartbeat
  | "autonomous_request" => some .autonomous_request
  | "autonomous_response" => some .autonomous_response
  | "context_enriched" => some .context_enriched
  | "handoff" => some .handoff
  | "progress_update" => some .progress_update
  | _ => none

inductive MessagePriority where
  | low
  | normal
  | high
  | urgent
  | critical
deriving DecidableEq, Repr

def MessagePriority.value : MessagePriority → Nat
  | .low => 1
  | .normal => 2
  | .high => 3
  | .urgent => 4
  | .critical => 5

def MessagePriority.fromValue : Nat → Option MessagePriority
  | 1 => some .low
  | 2 => some .normal
  | 3 => some .high
  | 4 => some .urgent
  | 5 => some .critical
  | _ => none

inductive AgentRole where
  | frontend
  | backend
  | orchestrator
deriving DecidableEq, Repr

def AgentRole.value : AgentRole → String
  | .frontend => "frontend"
  | .backend => "backend"
  | .orchestrator => "orchestrator"

/-- `AgentRole(string)`: the member with that value, None for a ValueError. -/
def AgentRole.fromValue : String → Option AgentRole
  | "frontend" => some .frontend
  | "backend" => some .backend
  | "orchestrator" => some .orchestrator
  | _ => none

/-- Values of the free-form `metadata` map.  The code stores strings, lists of
strings (the `enriched_fields` of a transformation record) and one nested
object (the `transformation` record); this covers every metadata value the
modelled operations construct or read. -/
inductive MetaLeaf where
  | str (s : String)
  | strList (xs : List String)
deriving DecidableEq, Repr

inductive MetaVal where
  | str (s : String)
  | strList (xs : List String)
  | obj (kvs : List (String × MetaLeaf))
deriving DecidableEq, Repr

def pyQuote (s : String) : String := "'" ++ s ++ "'"

def pyReprStrList (xs : List String) : String :=
  "[" ++ String.intercalate ", " (xs.map pyQuote) ++ "]"

def MetaLeaf.pyRepr : MetaLeaf → String
  | .str s => pyQuote s
  | .strList xs => pyReprStrList xs

/-- `str(value)` over a metadata value: a string is itself, containers render
as their Python repr (string escaping inside the repr is not modelled; only
the non-emptiness of the rendering is ever relied on). -/
def MetaVal.pyStr : MetaVal → String
  | .str s => s
  | .strList xs => pyReprStrList xs
  | .obj kvs => "\x7b" ++
      String.intercalate ", "
        (kvs.map (fun kv => pyQuote kv.1 ++ ": " ++ kv.2.pyRepr)) ++ "\x7d"

/-- The `Message` dataclass.  In Python a missing `id`/`timestamp` is filled
by `__post_init__` with a fresh uuid4 and the current instant; in the
embedding every construction site passes them explicitly (fresh uuids come
from the bus counter, see `freshUuid`). -/
structure Message where
  type : MessageType
  sender : String
  recipient : String
  content : String
  session_id : String
  id : String
  timestamp : Nat
  priority : MessagePriority := MessagePriority.normal
  metadata : List (String × MetaVal) := []
  reply_to : Option String := none
  requires_response : Bool := false
deriving DecidableEq, Repr

/-! ## Message transformation engine (communication.py, lines 97-536) -/

/-- A Python format string, parsed into literal text and `\x7bfield\x7d`
placeholders. -/
inductive TemplateChunk where
  | lit (s : String)
  | field (name : String)
deriving DecidableEq, Repr

structure MessageTransformationTemplate where
  from_role : AgentRole
  to_role : AgentRole
  template : List TemplateChunk
  context_fields : List String
deriving DecidableEq, Repr

/-- The key `add_template` files a template under (and `transform_message`
looks it up by). -/
def templateKey (fr tr : AgentRole) (template_id : String) : String :=
  fr.value ++ "_to_" ++ tr.value ++ "_" ++ template_id

/-- `str.format(**context)`: every placeholder must be bound or the format
call raises KeyError (modelled as `none`). -/
def renderTemplate (chunks : List TemplateChunk)
    (ctx : List (String × String)) : Option String :=
  chunks.foldr
    (fun c acc =>
      match acc with
      | none => none
      | some rest =>
          match c with
          | TemplateChunk.lit t => some (t ++ rest)
          | TemplateChunk.field f =>
              match alGet ctx f with
              | some v => some (v ++ rest)
              | none => none)
    (some "")
/-- Body of the frontend_to_backend_api_request template, parsed into literal and field chunks. -/
def frontendToBackendApiRequestBody : List TemplateChunk := [
  TemplateChunk.lit "\nBACKEND IMPLEMENTATION REQUEST:\n\n**Context**: The frontend agent needs ",
  TemplateChunk.field "functionality",
  TemplateChunk.lit " implemented on the backend.\n\n**Specific Requirements**:\n",
  TemplateChunk.field "requirements",
  TemplateChunk.lit "\n\n**Technical Details**:\n- Implement ",
  TemplateChunk.field "endpoint_type",
  TemplateChunk.lit " endpoints: ",
  TemplateChunk.field "endpoints",
  TemplateChunk.lit "\n- Add data validation for: ",
  TemplateChunk.field "validation_fields",
  TemplateChunk.lit "\n- Include authentication/authorization: ",
  TemplateChunk.field "auth_required",
  TemplateChunk.lit "\n- Database operations needed: ",
  TemplateChunk.field "db_operations",
  TemplateChunk.lit "\n- Return format: ",
  TemplateChunk.field "response_format",
  TemplateChunk.lit "\n\n**Project Context**:\n- Current backend architecture: ",
  TemplateChunk.field "backend_stack",
  TemplateChunk.lit "\n- Database schema: ",
  TemplateChunk.field "db_schema",
  TemplateChunk.lit "\n- Authentication system: ",
  TemplateChunk.field "auth_system",
  TemplateChunk.lit "\n- API standards: ",
  TemplateChunk.field "api_standards",
  TemplateChunk.lit "\n\n**Expected Deliverables**:\n1. API endpoint implementation\n2. Data models/schemas\n3. Input validation\n4. Error handling\n5. Documentation of endpoints\n\n**Integration Notes**:\n",
  TemplateChunk.field "integration_notes",
  TemplateChunk.lit "\n\nPlease implement the backend components and provide the API specification for frontend integration.\n            "
]

def frontendToBackendApiRequestFields : List String := [
  "functionality",
  "requirements",
  "endpoints",
  "validation_fields",
  "auth_required",
  "db_operations",
  "response_format",
  "backend_stack",
  "db_schema",
  "auth_system",
  "api_standards",
  "integration_notes"
]

/-- Body of the backend_to_frontend_api_ready template, parsed into literal and field chunks. -/
def backendToFrontendApiReadyBody : List TemplateChunk := [
  TemplateChunk.lit "\nFRONTEND INTEGRATION REQUEST:\n\n**Backend Implementation Complete**: ",
  TemplateChunk.field "implementation_summary",
  TemplateChunk.lit "\n\n**Available APIs**:\n",
  TemplateChunk.field "api_endpoints",
  TemplateChunk.lit "\n\n**Authentication Requirements**:\n",
  TemplateChunk.field "auth_details",
  TemplateChunk.lit "\n\n**Frontend Integration Tasks**:\n1. Create UI components for: ",
  TemplateChunk.field "ui_components",
  TemplateChunk.lit "\n2. Implement API client methods: ",
  TemplateChunk.field "api_methods",
  TemplateChunk.lit "\n3. Add form validation for: ",
  TemplateChunk.field "form_fields",
  TemplateChunk.lit "\n4. Handle authentication flow: ",
  TemplateChunk.field "auth_flow",
  TemplateChunk.lit "\n5. Implement error handling for: ",
  TemplateChunk.field "error_scenarios",
  TemplateChunk.lit "\n\n**API Details**:\n",
  TemplateChunk.field "api_documentation",
  TemplateChunk.lit "\n\n**Sample Usage**:\n",
  TemplateChunk.field "code_examples",
  TemplateChunk.lit "\n\n**State Management**:\n- Global state updates needed: ",
  TemplateChunk.field "state_updates",
  TemplateChunk.lit "\n- Local component state: ",
  TemplateChunk.field "local_state",
  TemplateChunk.lit "\n- Cache management: ",
  TemplateChunk.field "cache_strategy",
  TemplateChunk.lit "\n\n**UI/UX Requirements**:\n- Loading states for: ",
  TemplateChunk.field "loading_states",
  TemplateChunk.lit "\n- Error messages for: ",
  TemplateChunk.field "error_messages",
  TemplateChunk.lit "\n- Success feedback for: ",
  TemplateChunk.field "success_feedback",
  TemplateChunk.lit "\n\n**Testing Requirements**:\n",
  TemplateChunk.field "testing_requirements",
  TemplateChunk.lit "\n\nPlease integrate these APIs into the frontend and create the necessary user interface components.\n            "
]

def backendToFrontendApiReadyFields : List String := [
  "implementation_summary",
  "api_endpoints",
  "auth_details",
  "ui_components",
  "api_methods",
  "form_fields",
  "auth_flow",
  "error_scenarios",
  "api_documentation",
  "code_examples",
  "state_updates",
  "local_state",
  "cache_strategy",
  "loading_states",
  "error_messages",
  "success_feedback",
  "testing_requirements"
]

/-- Body of the orchestrator_to_frontend_task template, parsed into literal and field chunks. -/
def orchestratorToFrontendTaskBody : List TemplateChunk := [
  TemplateChunk.lit "\nFRONTEND DEVELOPMENT TASK:\n\n**Project Objective**: ",
  TemplateChunk.field "project_objective",
  TemplateChunk.lit "\n\n**Your Specific Role**: ",
  TemplateChunk.field "agent_role",
  TemplateChunk.lit "\n\n**Task Assignment**:\n",
  TemplateChunk.field "task_description",
  TemplateChunk.lit "\n\n**Current Project State**:\n",
  TemplateChunk.field "project_state",
  TemplateChunk.lit "\n\n**Collaboration Context**:\n- Backend agent status: ",
  TemplateChunk.field "backend_status",
  TemplateChunk.lit "\n- Previously completed work: ",
  TemplateChunk.field "completed_work",
  TemplateChunk.lit "\n- Dependencies: ",
  TemplateChunk.field "dependencies",
  TemplateChunk.lit "\n- Next expected handoff: ",
  TemplateChunk.field "next_handoff",
  TemplateChunk.lit "\n\n**Technical Requirements**:\n",
  TemplateChunk.field "technical_requirements",
  TemplateChunk.lit "\n\n**Success Criteria**:\n",
  TemplateChunk.field "success_criteria",
  TemplateChunk.lit "\n\n**Resources Available**:\n",
  TemplateChunk.field "resources",
  TemplateChunk.lit "\n\nPlease proceed with the frontend implementation and coordinate with the backend agent as needed.\n            "
]

def orchestratorToFrontendTaskFields : List String := [
  "project_objective",
  "agent_role",
  "task_description",
  "project_state",
  "backend_status",
  "completed_work",
  "dependencies",
  "next_handoff",
  "technical_requirements",
  "success_criteria",
  "resources"
]

/-- Body of the orchestrator_to_backend_task template, parsed into literal and field chunks. -/
def orchestratorToBackendTaskBody : List TemplateChunk := [
  TemplateChunk.lit "\nBACKEND DEVELOPMENT TASK:\n\n**Project Objective**: ",
  TemplateChunk.field "project_objective",
  TemplateChunk.lit "\n\n**Your Specific Role**: ",
  TemplateChunk.field "agent_role",
  TemplateChunk.lit "\n\n**Task Assignment**:\n",
  TemplateChunk.field "task_description",
  TemplateChunk.lit "\n\n**Current Project State**:\n",
  TemplateChunk.field "project_state",
  TemplateChunk.lit "\n\n**Collaboration Context**:\n- Frontend agent status: ",
  TemplateChunk.field "frontend_status",
  TemplateChunk.lit "\n- Previously completed work: ",
  TemplateChunk.field "completed_work",
  TemplateChunk.lit "\n- Dependencies: ",
  TemplateChunk.field "dependencies",
  TemplateChunk.lit "\n- Next expected handoff: ",
  TemplateChunk.field "next_handoff",
  TemplateChunk.lit "\n\n**Technical Requirements**:\n",
  TemplateChunk.field "technical_requirements",
  TemplateChunk.lit "\n\n**Success Criteria**:\n",
  TemplateChunk.field "success_criteria",
  TemplateChunk.lit "\n\n**Resources Available**:\n",
  TemplateChunk.field "resources",
  TemplateChunk.lit "\n\nPlease proceed with the backend implementation and coordinate with the frontend agent as needed.\n            "
]

def orchestratorToBackendTaskFields : List String := [
  "project_objective",
  "agent_role",
  "task_description",
  "project_state",
  "frontend_status",
  "completed_work",
  "dependencies",
  "next_handoff",
  "technical_requirements",
  "success_criteria",
  "resources"
]

/-- `_initialize_default_templates`: the four templates registered in the
engine constructor, keyed as `add_template` keys them. -/
def initial_templates : List (String × MessageTransformationTemplate) := [
  (templateKey AgentRole.frontend AgentRole.backend "frontend_to_backend_api_request",
   { from_role := AgentRole.frontend, to_role := AgentRole.backend,
     template := frontendToBackendApiRequestBody, context_fields := frontendToBackendApiRequestFields }),
  (templateKey AgentRole.backend AgentRole.frontend "backend_to_frontend_api_ready",
   { from_role := AgentRole.backend, to_role := AgentRole.frontend,
     template := backendToFrontendApiReadyBody, context_fields := backendToFrontendApiReadyFields }),
  (templateKey AgentRole.orchestrator AgentRole.frontend "orchestrator_to_frontend_task",
   { from_role := AgentRole.orchestrator, to_role := AgentRole.frontend,
     template := orchestratorToFrontendTaskBody, context_fields := orchestratorToFrontendTaskFields }),
  (templateKey AgentRole.orchestrator AgentRole.backend "orchestrator_to_backend_task",
   { from_role := AgentRole.orchestrator, to_role := AgentRole.backend,
     template := orchestratorToBackendTaskBody, context_fields := orchestratorToBackendTaskFields })
]

/-- The `_set_default_values` dict literal.  The Python literal lists the
key endpoints twice; as in any dict literal the later value wins while the
key keeps its first position, which is what this list records. -/
def defaultValues : List (String × String) := [
  ("functionality", "requested functionality"),
  ("requirements", "to be determined"),
  ("endpoints", "API endpoints to be defined"),
  ("validation_fields", "to be determined"),
  ("auth_required", "to be determined"),
  ("db_operations", "to be specified"),
  ("response_format", "JSON"),
  ("backend_stack", "to be determined"),
  ("db_schema", "to be defined"),
  ("auth_system", "to be implemented"),
  ("api_standards", "RESTful APIs"),
  ("integration_notes", "standard integration patterns"),
  ("endpoint_type", "RESTful endpoints"),
  ("implementation_summary", "implementation completed"),
  ("api_endpoints", "endpoints available"),
  ("auth_details", "authentication configured"),
  ("ui_components", "to be created"),
  ("api_methods", "to be implemented"),
  ("form_fields", "to be defined"),
  ("auth_flow", "standard authentication flow"),
  ("error_scenarios", "standard error handling"),
  ("api_documentation", "documentation available"),
  ("code_examples", "examples provided"),
  ("state_updates", "to be determined"),
  ("local_state", "component-specific state"),
  ("cache_strategy", "standard caching"),
  ("loading_states", "loading indicators"),
  ("error_messages", "user-friendly errors"),
  ("success_feedback", "success notifications"),
  ("testing_requirements", "standard testing"),
  ("project_objective", "project development"),
  ("agent_role", "specialized development role"),
  ("task_description", "development task"),
  ("project_state", "in progress"),
  ("backend_status", "active"),
  ("frontend_status", "active"),
  ("completed_work", "previous work completed"),
  ("dependencies", "no blocking dependencies"),
  ("next_handoff", "coordinate with other agent"),
  ("technical_requirements", "standard requirements"),
  ("success_criteria", "functional implementation"),
  ("resources", "development resources available")
]

/-- A registered context-provider callback: agents hand the bus a function
from (message, from-role, to-role) to a dict of context values.  A provider
that raises, or returns something other than a dict, is skipped by the code;
that behaviour corresponds to the empty list here. -/
def ContextProvider : Type := Message → AgentRole → AgentRole → List (String × String)

structure MessageTransformationEngine where
  templates : List (String × MessageTransformationTemplate)
  context_providers : List (String × ContextProvider)

/-- The engine as `__init__` builds it: the four default templates, no
context providers yet. -/
def initialEngine : MessageTransformationEngine :=
  { templates := initial_templates, context_providers := [] }

/-- `_set_default_values` (lines 398-450): fill in each default for a key the
context does not yet hold (presence is what is tested, not truthiness). -/
def set_default_values (ctx : List (String × String)) : List (String × String) :=
  defaultValues.foldl (fun c kv => if alHas c kv.1 then c else c ++ [kv]) ctx

/-- `_extract_field_from_content` (lines 472-511): metadata wins, then
keyword heuristics over the lowercased content for four known fields. -/
def extract_field_from_content (field : String) (content : String)
    (metadata : List (String × MetaVal)) : Option String :=
  match alGet metadata field with
  | some v => some v.pyStr
  | none =>
      let cl := pyLower content
      if field = "functionality" then
        if containsSub cl "api" then some "API implementation"
        else if containsSub cl "frontend" || containsSub cl "ui" then
          some "Frontend interface"
        else if containsSub cl "backend" then some "Backend service"
        else if containsSub cl "database" then some "Database operations"
        else none
      else if field = "requirements" then
        if containsSub cl "create" then some "Create new components"
        else if containsSub cl "update" || containsSub cl "modify" then
          some "Update existing functionality"
        else if containsSub cl "implement" then some "Implementation requirements"
        else none
      else if field = "api_endpoints" then
        if containsSub cl "endpoint" || containsSub cl "api" then
          some "RESTful API endpoints"
        else if containsSub cl "route" then some "Application routes"
        else none
      else if field = "auth_required" then
        if containsSub cl "auth" || containsSub cl "login" then
          some "Yes - authentication required"
        else some "To be determined based on requirements"
      else none

/-- The last resort of `_get_intelligent_default`: the general default
table, or a bracketed placeholder built from the field name. -/
def defaultFallback (field : String) : String :=
  (alGet (set_default_values []) field).getD
    ("[" ++ field ++ " to be determined]")

/-- `_get_intelligent_default` (lines 513-536): a role-specific default for
three fields, otherwise `defaultFallback`.  `sender_role` is
`context.get("from_agent", "unknown")`, written out at each test. -/
def get_intelligent_default (field : String) (_m : Message)
    (context : List (String × String)) : String :=
  if (alGet context "from_agent").getD "unknown" = "frontend" then
    if field = "functionality" then "Frontend user interface development"
    else if field = "requirements" then
      "User interface components and interactions"
    else if field = "api_endpoints" then
      "Client-side API consumption endpoints"
    else defaultFallback field
  else if (alGet context "from_agent").getD "unknown" = "backend" then
    if field = "functionality" then "Backend service implementation"
    else if field = "requirements" then "Server-side logic and data management"
    else if field = "api_endpoints" then "Server API endpoints and services"
    else defaultFallback field
  else defaultFallback field

/-- One field of `_ensure_template_fields`: fill a missing or falsy field
from extraction if that yields a truthy value, else from the intelligent
default. -/
def fillTemplateField (safe : List (String × String)) (field : String)
    (m : Message) (origCtx : List (String × String)) :
    List (String × String) :=
  match extract_field_from_content field m.content m.metadata with
  | some ev =>
      if ev ≠ "" then alSet safe field ev
      else alSet safe field (get_intelligent_default field m origCtx)
  | none => alSet safe field (get_intelligent_default field m origCtx)

/-- The loop body of `_ensure_template_fields`: a field that is present with
a truthy value is kept, a missing or falsy one is filled. -/
def ensureFieldStep (m : Message) (ctx : List (String × String))
    (safe : List (String × String)) (field : String) :
    List (String × String) :=
  match alGet safe field with
  | some v => if v ≠ "" then safe else fillTemplateField safe field m ctx
  | none => fillTemplateField safe field m ctx

/-- `_ensure_template_fields` (lines 452-470).  Note the intelligent default
consults the original `context` argument, not the partially filled copy. -/
def ensure_template_fields (ctx : List (String × String))
    (required_fields : List String) (m : Message) : List (String × String) :=
  required_fields.foldl (ensureFieldStep m ctx) ctx

/-- `_enrich_context` (lines 365-396): base context, then the message basics,
then every registered provider of the engine in order, then the defaults. -/
def enrich_context (eng : MessageTransformationEngine) (m : Message)
    (fr tr : AgentRole) (base : List (String × String)) :
    List (String × String) :=
  let basic := [("original_message", m.content), ("from_agent", fr.value),
    ("to_agent", tr.value), ("timestamp", toString m.timestamp),
    ("session_id", m.session_id)]
  let e1 := basic.foldl (fun c kv => alSet c kv.1 kv.2) base
  let e2 := eng.context_providers.foldl
    (fun c p => (p.2 m fr tr).foldl (fun c' kv => alSet c' kv.1 kv.2) c) e1
  set_default_values e2

/-- `transform_message` (lines 303-363).  The boolean records whether a new
(transformed) message object was constructed, which is when a uuid4 is drawn;
a missing template or a formatting KeyError (caught by the code) returns the
original message. -/
def transform_message (eng : MessageTransformationEngine) (m : Message)
    (fr tr : AgentRole) (template_id : String)
    (context : List (String × String)) (freshId : String) (now : Nat) :
    Message × Bool :=
  match alGet eng.templates (templateKey fr tr template_id) with
  | none => (m, false)
  | some tmpl =>
      let enriched := enrich_context eng m fr tr context
      let safe := ensure_template_fields enriched tmpl.context_fields m
      match renderTemplate tmpl.template safe with
      | none => (m, false)
      | some content =>
          ({ type := MessageType.context_enriched
             sender := m.sender
             recipient := m.recipient
             content := content
             session_id := m.session_id
             id := freshId
             timestamp := now
             priority := m.priority
             metadata := alSet m.metadata "transformation" (MetaVal.obj
               [("from_role", MetaLeaf.str fr.value),
                ("to_role", MetaLeaf.str tr.value),
                ("template_id", MetaLeaf.str template_id),
                ("original_content", MetaLeaf.str m.content),
                ("enriched_fields", MetaLeaf.strList (enriched.map Prod.fst))])
             reply_to := some m.id
             requires_response := false }, true)

/-! ## Conversation state manager (communication.py, lines 538-807) -/

structure HandoffRule where
  trigger : String
  condition : Message → Bool
  from_role : AgentRole
  to_role : AgentRole
  message_type : MessageType

/-- `_initialize_handoff_rules` (lines 561-592): the fixed rule list the
constructor installs (nothing ever mutates it). -/
def handoff_rules : List HandoffRule :=
  [ { trigger := "api_implementation_complete"
      condition := fun m =>
        containsSub (pyLower m.content) "implementation completed" &&
        containsSub (pyLower m.content) "api"
      from_role := AgentRole.backend
      to_role := AgentRole.frontend
      message_type := MessageType.handoff },
    { trigger := "frontend_integration_request"
      condition := fun m =>
        ["need api", "backend for", "implement endpoint"].any
          (fun w => containsSub (pyLower m.content) w)
      from_role := AgentRole.frontend
      to_role := AgentRole.backend
      message_type := MessageType.handoff },
    { trigger := "ui_components_complete"
      condition := fun m =>
        containsSub (pyLower m.content) "ui completed" ||
        containsSub (pyLower m.content) "components ready"
      from_role := AgentRole.frontend
      to_role := AgentRole.backend
      message_type := MessageType.handoff },
    { trigger := "review_request"
      condition := fun m =>
        ["review", "check", "validate"].any
          (fun w => containsSub (pyLower m.content) w)
      from_role := AgentRole.frontend
      to_role := AgentRole.backend
      message_type := MessageType.review } ]

/-- `_determine_agent_role_from_message` (lines 685-704): substring tests on
the lowercased sender, then the metadata `agent_role` field (a value that is
not a valid role name raises ValueError, which the code turns into None). -/
def determine_agent_role_from_message (m : Message) : Option AgentRole :=
  let sl := pyLower m.sender
  if containsSub sl "frontend" || containsSub sl "ui" then
    some AgentRole.frontend
  else if containsSub sl "backend" || containsSub sl "api" then
    some AgentRole.backend
  else if containsSub sl "orchestrator" || containsSub sl "manager" then
    some AgentRole.orchestrator
  else if m.metadata = [] then none
  else
    match alGet m.metadata "agent_role" with
    | some (MetaVal.str r) => AgentRole.fromValue r
    | some _ => none
    | none => none

/-- The decision `_evaluate_handoff` (lines 706-722) returns when a rule
fires: target role, trigger and the message type the rule names. -/
structure HandoffDecision where
  next_agent : AgentRole
  reason : String
  message_type : MessageType
deriving DecidableEq, Repr

/-- `_evaluate_handoff`: the first rule whose source role matches the current
agent and whose condition holds on the message. -/
def evaluate_handoff_rules (m : Message) (current : AgentRole) :
    Option HandoffDecision :=
  (handoff_rules.find? (fun r => decide (r.from_role = current) && r.condition m)).map
    (fun r => { next_agent := r.to_role, reason := r.trigger,
                message_type := r.message_type })

/-- `evaluate_handoff` (lines 670-683): determine the current agent from the
message, then run the rules; None when no role can be determined (the
`required: False` answer). -/
def evaluate_handoff (m : Message) : Option HandoffDecision :=
  match determine_agent_role_from_message m with
  | none => none
  | some current => evaluate_handoff_rules m current

structure ConversationTurnState where
  current_turn : AgentRole
  turn_count : Nat
  last_activity : Nat
  progress_markers : List String := []
  blocked : Bool := false
  completion_status : String := "in_progress"
deriving DecidableEq, Repr

structure ProgressItem where
  timestamp : String
  description : String
  agent : String
deriving DecidableEq, Repr

structure ProgressTracking where
  markers : List String := []
  completion_percentage : Rat := 0
  blocked_items : List ProgressItem := []
  completed_items : List ProgressItem := []
deriving DecidableEq, Repr

def completion_keywords : List String :=
  ["completed", "finished", "done", "implemented", "ready"]

def blocking_keywords : List String :=
  ["blocked", "cannot", "error", "failed", "issue"]

/-- The item description `_track_progress` records: the first 100 characters
of the content, with an ellipsis when it was truncated. -/
def progressDescription (content : String) : String :=
  if content.data.length > 100 then pyTake content 100 ++ "..." else content

/-- `_track_progress` (lines 724-767): initialise the record if absent, file
the message under completed and/or blocked items by keyword scan, recompute
the completion percentage. -/
def track_progress (pt : List (String × ProgressTracking)) (m : Message)
    (conversation_id : String) : List (String × ProgressTracking) :=
  let cur := (alGet pt conversation_id).getD {}
  let cl := pyLower m.content
  let item : ProgressItem :=
    { timestamp := toString m.timestamp
      description := progressDescription m.content
      agent := m.sender }
  let cur1 :=
    if completion_keywords.any (fun k => containsSub cl k) then
      { cur with completed_items := cur.completed_items ++ [item] }
    else cur
  let cur2 :=
    if blocking_keywords.any (fun k => containsSub cl k) then
      { cur1 with blocked_items := cur1.blocked_items ++ [item] }
    else cur1
  let total := cur2.completed_items.length + cur2.blocked_items.length
  let cur3 :=
    if total > 0 then
      { cur2 with completion_percentage :=
          ((cur2.completed_items.length : Rat) / (total : Rat)) * 100 }
    else cur2
  alSet pt conversation_id cur3

/-- The conversation id `manage_conversation_turn` keys its state by
(sender and recipient in message order, unlike the thread id of the bus). -/
def turnConversationId (m : Message) : String :=
  m.session_id ++ "_" ++ m.sender ++ "_" ++ m.recipient

/-- The state effect of `manage_conversation_turn` (lines 594-668): create or
bump the per-conversation turn record, then track progress.  The handoff
evaluation and completion check it also performs are pure and their combined
answer is discarded by the only caller (`send_message` logs it), so only the
two map updates are modelled. -/
def manage_conversation_turn_state
    (active : List (String × ConversationTurnState))
    (pt : List (String × ProgressTracking)) (m : Message)
    (current_agent : AgentRole) (now : Nat) :
    List (String × ConversationTurnState) × List (String × ProgressTracking) :=
  let cid := turnConversationId m
  let conv :=
    (alGet active cid).getD
      { current_turn := current_agent, turn_count := 0, last_activity := now }
  let active' := alSet active cid
    { conv with turn_count := conv.turn_count + 1, last_activity := now }
  (active', track_progress pt m cid)

/-! ## The message bus (communication.py, lines 809-1593) -/

structure RegisteredAgent where
  role : AgentRole
  registered_at : String
  active : Bool
deriving Repr

structure BusStats where
  total_messages : Nat := 0
  messages_by_type : List (String × Nat) := []
  active_conversations : Nat := 0
  transformations : Nat := 0
  handoffs : Nat := 0
  errors : Nat := 0
deriving DecidableEq, Repr

structure ConversationThread where
  id : String
  participants : List String
  session_id : String
  created_at : Nat
  messages : List Message
  is_active : Bool := true
  metadata : List (String × MetaVal) := []
deriving DecidableEq, Repr

/-- One line of the per-session `messages.jsonl` log, as `_persist_message`
writes it: the enum fields replaced by their values.  The timestamp is
serialised with `isoformat` and read back with `fromisoformat`, two mutually
inverse functions on datetimes; the embedding therefore keeps the instant
itself in this field. -/
structure PersistedMessage where
  id : String
  type : String
  sender : String
  recipient : String
  content : String
  session_id : String
  timestamp : Nat
  priority : Nat
  metadata : List (String × MetaVal)
  reply_to : Option String
  requires_response : Bool
deriving DecidableEq, Repr

/-- The state of a `MessageBus` object.  `message_handlers`/`event_handlers`
hold callbacks owned by the surrounding (out-of-scope) layers and are only
invoked, never used to change bus state in this module, so they are not
modelled; `uuid_seq` is the supply standing in for `uuid.uuid4()`. -/
structure MessageBus where
  transformation_engine : MessageTransformationEngine
  active_conversations : List (String × ConversationTurnState)
  progress_tracking : List (String × ProgressTracking)
  registered_agents : List (String × RegisteredAgent)
  agent_context_providers : List (String × ContextProvider)
  messages : List Message
  conversations : List (String × ConversationThread)
  message_queues : List (String × List Message)
  auto_transform : Bool := true
  auto_handoff : Bool := true
  context_enrichment : Bool := true
  stats : BusStats := {}
  persisted : List (String × List PersistedMessage) := []
  uuid_seq : Nat := 0

/-- The uuid4 supply: the `n`-th fresh id drawn by the bus. -/
def freshUuid (n : Nat) : String := "uuid-" ++ toString n

/-- The bus as `__init__` builds it (empty maps, flags on, the engine with
its default templates). -/
def initialBus : MessageBus :=
  { transformation_engine := initialEngine
    active_conversations := []
    progress_tracking := []
    registered_agents := []
    agent_context_providers := []
    messages := []
    conversations := []
    message_queues := [] }

/-- The fixed `agent_roles` mapping installed by `__init__` (never written
afterwards). -/
def agent_roles : List (String × AgentRole) :=
  [("agent_frontend", AgentRole.frontend),
   ("agent_backend", AgentRole.backend),
   ("orchestrator", AgentRole.orchestrator)]

/-- `_get_agent_role` (lines 1173-1188). -/
def get_agent_role (ident : String) : Option AgentRole :=
  match alGet agent_roles ident with
  | some r => some r
  | none =>
      let il := pyLower ident
      if containsSub il "frontend" || containsSub il "ui" then
        some AgentRole.frontend
      else if containsSub il "backend" || containsSub il "api" then
        some AgentRole.backend
      else if containsSub il "orchestrator" || containsSub il "manager" then
        some AgentRole.orchestrator
      else none

/-- `_get_registered_agent_role` (lines 1163-1171): the first registered
agent whose id equals, or is a suffix of, the identifier (whether or not it
is still active), then the plain lookup as fallback. -/
def get_registered_agent_role (s : MessageBus) (ident : String) :
    Option AgentRole :=
  match s.registered_agents.find?
      (fun a => decide (a.1 = ident) || pyEndsWith ident a.1) with
  | some a => some a.2.role
  | none => get_agent_role ident

/-- `_determine_template_id` (lines 1190-1211). -/
def determine_template_id (m : Message) (sr rr : AgentRole) : Option String :=
  let cl := pyLower m.content
  if sr = AgentRole.frontend ∧ rr = AgentRole.backend then
    if containsSub cl "api" || containsSub cl "endpoint" ||
        containsSub cl "implement" then
      some "frontend_to_backend_api_request"
    else none
  else if sr = AgentRole.backend ∧ rr = AgentRole.frontend then
    if containsSub cl "complete" || containsSub cl "ready" ||
        containsSub cl "implemented" then
      some "backend_to_frontend_api_ready"
    else none
  else if sr = AgentRole.orchestrator then
    if rr = AgentRole.frontend then some "orchestrator_to_frontend_task"
    else if rr = AgentRole.backend then some "orchestrator_to_backend_task"
    else none
  else none

/-- `transform_message_centralized` (lines 950-992): enrich the additional
context with every ACTIVE registered agent context provider, each key
prefixed with the agent id, then run the engine transformation. -/
def transform_message_centralized (s : MessageBus) (m : Message)
    (fr tr : AgentRole) (template_id : String)
    (additional : List (String × String)) (freshId : String) (now : Nat) :
    Message × Bool :=
  let enriched := s.agent_context_providers.foldl
    (fun c p =>
      if ((alGet s.registered_agents p.1).map (fun a => a.active)).getD false then
        (p.2 m fr tr).foldl
          (fun c' kv => alSet c' (p.1 ++ "_" ++ kv.1) kv.2) c
      else c)
    additional
  transform_message s.transformation_engine m fr tr template_id enriched
    freshId now

/-- `_apply_centralized_transformation` (lines 1104-1161): resolve both
roles from the registered agents; a missing role or template id leaves the
message untouched.  The `auto_generated`/`centralized_pipeline` values are
the booleans True, rendered as their string form. -/
def apply_centralized_transformation (s : MessageBus) (m : Message)
    (freshId : String) (now : Nat) : Message × Bool :=
  match get_registered_agent_role s m.sender,
        get_registered_agent_role s m.recipient with
  | some sr, some rr =>
      match determine_template_id m sr rr with
      | some tid =>
          transform_message_centralized s m sr rr tid
            [("auto_generated", "True"), ("centralized_pipeline", "True")]
            freshId now
      | none => (m, false)
  | _, _ => (m, false)

/-- `_validate_message` (lines 1249-1273).  The `all([...])` check is
truthiness of the fields: enum members are always truthy, the strings must
be non-empty; `isinstance(type, MessageType)` always holds in the typed
embedding. -/
def validate_message (m : Message) : Bool :=
  if m.sender = "" ∨ m.recipient = "" ∨ m.content = "" ∨ m.session_id = "" then
    false
  else if m.content.data.length > 50000 then false
  else if m.sender = m.recipient ∧ m.type ≠ MessageType.system then false
  else true

/-- `_get_conversation_id` (lines 1299-1303): session id plus the
participant pair sorted ascending. -/
def conversationId (sender recipient session_id : String) : String :=
  if recipient < sender then
    session_id ++ "_" ++ recipient ++ "_" ++ sender
  else
    session_id ++ "_" ++ sender ++ "_" ++ recipient

/-- `_add_to_conversation` (lines 1275-1297): create the thread lazily
(counting it in the stats), then append the message.  `list(set(...))` on
the participants is modelled as the deduplicated pair. -/
def add_to_conversation (s : MessageBus) (m : Message) (now : Nat) :
    MessageBus :=
  let cid := conversationId m.sender m.recipient m.session_id
  match alGet s.conversations cid with
  | none =>
      let participants :=
        if m.sender = m.recipient then [m.sender] else [m.sender, m.recipient]
      let thread : ConversationThread :=
        { id := cid, participants := participants, session_id := m.session_id,
          created_at := now, messages := [m] }
      { s with
          conversations := alSet s.conversations cid thread
          stats := { s.stats with
            active_conversations := s.stats.active_conversations + 1 } }
  | some th =>
      { s with conversations :=
          alSet s.conversations cid { th with messages := th.messages ++ [m] } }

/-- `_add_to_queue` (lines 1321-1332): create the queue lazily, then put. -/
def add_to_queue (queues : List (String × List Message)) (recipient : String)
    (m : Message) : List (String × List Message) :=
  match alGet queues recipient with
  | none => queues ++ [(recipient, [m])]
  | some msgs => alSet queues recipient (msgs ++ [m])

/-- `_route_message` (lines 1305-1319): a recipient of `both` or `all`
broadcasts to every existing queue whose name starts with `agent_`;
otherwise the message goes to the (lazily created) recipient queue. -/
def route_message (queues : List (String × List Message)) (m : Message) :
    List (String × List Message) :=
  if m.recipient = "both" ∨ m.recipient = "all" then
    queues.map (fun q =>
      if pyStartsWith q.1 "agent_" then (q.1, q.2 ++ [m]) else q)
  else add_to_queue queues m.recipient m

/-- The record `_persist_message` (lines 1421-1439) appends to the session
log. -/
def persistedOf (m : Message) : PersistedMessage :=
  { id := m.id
    type := m.type.value
    sender := m.sender
    recipient := m.recipient
    content := m.content
    session_id := m.session_id
    timestamp := m.timestamp
    priority := m.priority.value
    metadata := m.metadata
    reply_to := m.reply_to
    requires_response := m.requires_response }

def persist_message (s : MessageBus) (m : Message) : MessageBus :=
  let log := (alGet s.persisted m.session_id).getD []
  { s with persisted :=
      alSet s.persisted m.session_id (log ++ [persistedOf m]) }

/-- One line of `load_conversation_history` (lines 1441-1477): rebuild the
Message; a line whose enum values do not parse raises inside the `try` and
is skipped. -/
def parse_persisted (r : PersistedMessage) : Option Message :=
  match MessageType.fromValue r.type, MessagePriority.fromValue r.priority with
  | some ty, some pr =>
      some { type := ty, sender := r.sender, recipient := r.recipient,
             content := r.content, session_id := r.session_id, id := r.id,
             timestamp := r.timestamp, priority := pr, metadata := r.metadata,
             reply_to := r.reply_to,
             requires_response := r.requires_response }
  | _, _ => none

def load_conversation_history (s : MessageBus) (session_id : String) :
    List Message :=
  ((alGet s.persisted session_id).getD []).filterMap parse_persisted

/-- The system-authored message `_check_automatic_handoff` (lines 1213-1247)
sends when a rule fires. -/
def mkHandoffMessage (next_agent reason : String) (m : Message)
    (freshId : String) (now : Nat) : Message :=
  { type := MessageType.handoff
    sender := "system"
    recipient := next_agent
    content := "Automatic handoff initiated: " ++ reason
    session_id := m.session_id
    id := freshId
    timestamp := now
    priority := MessagePriority.normal
    metadata := [("handoff_reason", MetaVal.str reason),
                 ("original_message_id", MetaVal.str m.id),
                 ("handoff_source", MetaVal.str m.sender)]
    reply_to := none
    requires_response := false }

def bumpMessageStats (st : BusStats) (type_value : String) : BusStats :=
  { st with
      total_messages := st.total_messages + 1
      messages_by_type := alSet st.messages_by_type type_value
        (((alGet st.messages_by_type type_value).getD 0) + 1) }

/-- The first half of the `send_message` pipeline (lines 1026-1079), after
validation: optional centralized transformation (with the transformation
counter bumped when the result differs and a uuid drawn when a new message
object was built), history append, per-type stats, conversation thread
update, then the conversation state manager when the sender has a registered
role.  Returns the (possibly transformed) message together with the updated
bus. -/
def sendCore (s : MessageBus) (m : Message) (now : Nat) :
    Message × MessageBus :=
  let tmc : Message × Bool :=
    if s.auto_transform then
      apply_centralized_transformation s m (freshUuid s.uuid_seq) now
    else (m, false)
  let tm := tmc.1
  let s1 := if tmc.2 then { s with uuid_seq := s.uuid_seq + 1 } else s
  let s2 :=
    if s.auto_transform ∧ tm ≠ m then
      { s1 with stats :=
          { s1.stats with transformations := s1.stats.transformations + 1 } }
    else s1
  let s3 := { s2 with
      messages := s2.messages ++ [tm]
      stats := bumpMessageStats s2.stats tm.type.value }
  let s4 := add_to_conversation s3 tm now
  let s5 :=
    match get_registered_agent_role s4 tm.sender with
    | some role =>
        let ap := manage_conversation_turn_state s4.active_conversations
          s4.progress_tracking tm role now
        { s4 with active_conversations := ap.1, progress_tracking := ap.2 }
    | none => s4
  (tm, s5)

/-- `send_message` (lines 1016-1102) with the recursive handoff send
abstracted as `innerSend`: validation first (False with the bus untouched on
failure), then `sendCore`, then `_check_automatic_handoff` (which sends the
system handoff message through the full pipeline with `auto_transform`
turned off and restored afterwards), then routing, then persistence.  The
event handlers triggered between routing and persistence belong to the
surrounding layers and do not change bus state here. -/
def sendPipeline (innerSend : MessageBus → Message → Bool × MessageBus)
    (now : Nat) (s : MessageBus) (m : Message) : Bool × MessageBus :=
  if validate_message m then
    let tms := sendCore s m now
    let tm := tms.1
    let s5 := tms.2
    let s6 :=
      if s5.auto_handoff then
        match evaluate_handoff tm with
        | none => s5
        | some d =>
            let hm := mkHandoffMessage d.next_agent.value d.reason tm
              (freshUuid s5.uuid_seq) now
            let sOff := { s5 with
              uuid_seq := s5.uuid_seq + 1, auto_transform := false }
            let sAfter := (innerSend sOff hm).2
            let sRestored := { sAfter with auto_transform := s5.auto_transform }
            { sRestored with stats :=
                { sRestored.stats with handoffs := sRestored.stats.handoffs + 1 } }
      else s5
    let s7 := { s6 with message_queues := route_message s6.message_queues tm }
    let s8 := persist_message s7 tm
    (true, s8)
  else (false, s)

/-- `send_message` with a fuel bound on the handoff recursion (the Python
recursion has no bound of its own; `handoff_fuel_irrelevant` shows fuel 2 is
already exact). -/
def sendMessageFuel : Nat → Nat → MessageBus → Message → Bool × MessageBus
  | 0, _, s, _ => (false, s)
  | fuel + 1, now, s, m => sendPipeline (sendMessageFuel fuel now) now s m

def send_message (now : Nat) (s : MessageBus) (m : Message) :
    Bool × MessageBus :=
  sendMessageFuel 2 now s m

/-! ## Queue lemmas -/

theorem alGet_append {α β : Type} [DecidableEq α]
    (l₁ l₂ : List (α × β)) (k : α) :
    alGet (l₁ ++ l₂) k =
      match alGet l₁ k with
      | some v => some v
      | none => alGet l₂ k := by
  induction l₁ with
  | nil => simp [alGet]
  | cons hd tl ih =>
      obtain ⟨k₀, v₀⟩ := hd
      by_cases h₀ : k₀ = k
      · simp [alGet, h₀]
      · simp [alGet, h₀, ih]

theorem alGet_add_to_queue_self (queues : List (String × List Message))
    (r : String) (m : Message) :
    alGet (add_to_queue queues r m) r =
      some (((alGet queues r).getD []) ++ [m]) := by
  unfold add_to_queue
  rcases h : alGet queues r with _ | msgs
  · rw [alGet_append, h]
    simp [alGet]
  · simp [alGet_alSet_same, h]

theorem alGet_add_to_queue_other (queues : List (String × List Message))
    (r q : String) (m : Message) (hq : q ≠ r) :
    alGet (add_to_queue queues r m) q = alGet queues q := by
  unfold add_to_queue
  rcases h : alGet queues r with _ | msgs
  · rw [alGet_append]
    rcases h' : alGet queues q with _ | v
    · simp [alGet, Ne.symm hq]
    · rfl
  · exact alGet_alSet_other _ _ _ _ hq

theorem alGet_broadcast (queues : List (String × List Message)) (m : Message)
    (q : String) :
    alGet (queues.map (fun e =>
        if pyStartsWith e.1 "agent_" then (e.1, e.2 ++ [m]) else e)) q =
      (alGet queues q).map
        (fun msgs => if pyStartsWith q "agent_" then msgs ++ [m] else msgs) := by
  induction queues with
  | nil => simp [alGet]
  | cons hd tl ih =>
      obtain ⟨k₀, v₀⟩ := hd
      simp only [List.map_cons]
      by_cases hs : pyStartsWith k₀ "agent_"
      · rw [if_pos hs]
        by_cases h₀ : k₀ = q
        · subst h₀
          simp [alGet, hs]
        · simp [alGet, h₀, ih]
      · rw [if_neg hs]
        by_cases h₀ : k₀ = q
        · subst h₀
          simp [alGet, hs]
        · simp [alGet, h₀, ih]

/-- How many copies of `x` sit in queue `q`. -/
def queueCount (queues : List (String × List Message)) (q : String)
    (x : Message) : Nat :=
  ((alGet queues q).getD []).count x

/-- How often routing is meant to deliver a message with the recipient field
of `m` into queue `q`: once into the recipient queue for point-to-point
traffic, once into every already existing `agent_`-prefixed queue for a
broadcast. -/
def intendedCount (queues : List (String × List Message)) (m : Message)
    (q : String) : Nat :=
  if m.recipient = "both" ∨ m.recipient = "all" then
    if (alGet queues q).isSome ∧ pyStartsWith q "agent_" then 1 else 0
  else if q = m.recipient then 1 else 0

theorem queueCount_route_self (queues : List (String × List Message))
    (m : Message) (q : String) :
    queueCount (route_message queues m) q m =
      queueCount queues q m + intendedCount queues m q := by
  unfold route_message intendedCount queueCount
  by_cases hb : m.recipient = "both" ∨ m.recipient = "all"
  · rw [if_pos hb, if_pos hb, alGet_broadcast]
    rcases h : alGet queues q with _ | msgs
    · simp
    · by_cases hs : pyStartsWith q "agent_"
      · simp [hs, List.count_append]
      · simp [hs]
  · rw [if_neg hb, if_neg hb]
    by_cases hq : q = m.recipient
    · subst hq
      rw [alGet_add_to_queue_self, if_pos rfl]
      simp [List.count_append]
    · rw [alGet_add_to_queue_other _ _ _ _ hq, if_neg hq]
      simp

/-! ## Claim C8: self-addressed non-system messages are rejected -/

/-- C8: a message whose sender equals its recipient and whose type is not
System fails validation, so `send_message` returns False and the bus state
(threads, history, queues, everything) is exactly what it was. -/
theorem self_addressed_message_rejected (now : Nat) (s : MessageBus)
    (m : Message) (h1 : m.sender = m.recipient)
    (h2 : m.type ≠ MessageType.system) :
    send_message now s m = (false, s) := by
  have hv : validate_message m = false := by
    unfold validate_message
    split
    · rfl
    · split
      · rfl
      · rw [if_pos ⟨h1, h2⟩]
  unfold send_message sendMessageFuel sendPipeline
  simp [hv]

def mSelfDemo : Message :=
  { type := MessageType.task
    sender := "agent_a"
    recipient := "agent_a"
    content := "work on this"
    session_id := "sess-1"
    id := "m-self"
    timestamp := 0 }

/-- C8 witness: a concrete self-addressed task message bounces off the
freshly initialised bus with no state change. -/
theorem self_addressed_message_rejected_witness :
    send_message 0 initialBus mSelfDemo = (false, initialBus) :=
  self_addressed_message_rejected 0 initialBus mSelfDemo rfl (by decide)

/-! ## Claim C6: persistence round trip -/

theorem parse_persistedOf (m : Message) :
    parse_persisted (persistedOf m) = some m := by
  obtain ⟨ty, sen, rcp, cont, sid, idd, ts, pr, md, rt, rr⟩ := m
  cases ty <;> cases pr <;> rfl

/-- C6: a message appended to the session log by `_persist_message` is
reconstructed by `load_conversation_history` at the end of that session's
history, equal to the original in id, sender, recipient, content, session id
and type (the embedding recovers the whole record). -/
theorem message_persistence_roundtrip (s : MessageBus) (m : Message) :
    ∃ m', load_conversation_history (persist_message s m) m.session_id =
        load_conversation_history s m.session_id ++ [m'] ∧
      m'.id = m.id ∧ m'.sender = m.sender ∧ m'.recipient = m.recipient ∧
      m'.content = m.content ∧ m'.session_id = m.session_id ∧
      m'.type = m.type := by
  refine ⟨m, ?_, rfl, rfl, rfl, rfl, rfl, rfl⟩
  unfold load_conversation_history persist_message
  show List.filterMap parse_persisted
      ((alGet (alSet s.persisted m.session_id
          (((alGet s.persisted m.session_id).getD []) ++ [persistedOf m]))
        m.session_id).getD []) = _
  rw [alGet_alSet_same]
  simp [List.filterMap_append, parse_persistedOf]

/-! ## Claim C5: routing and broadcast delivery -/

def mBroadcastDemo : Message :=
  { type := MessageType.coordination
    sender := "orchestrator"
    recipient := "all"
    content := "sync plans"
    session_id := "sess-1"
    id := "m-bcast"
    timestamp := 0 }

/-- C5 counterexample: on a bus with no queues yet, a valid broadcast
message (recipient `all`) is accepted — `send_message` returns True — yet
ends up in no queue at all: broadcast only writes to already existing
`agent_`-prefixed queues and creates none, so the accepted message is
silently dropped rather than delivered to every agent's queue. -/
theorem broadcast_with_no_queues_is_dropped :
    (send_message 0 initialBus mBroadcastDemo).1 = true ∧
    (send_message 0 initialBus mBroadcastDemo).2.message_queues = [] := by
  exact ⟨rfl, rfl⟩

/-- C5 (amended): point-to-point routing delivers into a lazily created
recipient queue and touches nothing else; broadcast routing (`both`/`all`)
appends the message to exactly the already existing queues whose name starts
with `agent_` and creates no queue, so a broadcast reaching a bus with no
such queue is delivered nowhere. -/
theorem route_message_delivery (queues : List (String × List Message))
    (m : Message) :
    (¬ (m.recipient = "both" ∨ m.recipient = "all") →
      alGet (route_message queues m) m.recipient =
        some (((alGet queues m.recipient).getD []) ++ [m]) ∧
      ∀ q, q ≠ m.recipient →
        alGet (route_message queues m) q = alGet queues q) ∧
    ((m.recipient = "both" ∨ m.recipient = "all") →
      (∀ q msgs, alGet queues q = some msgs →
        alGet (route_message queues m) q =
          some (if pyStartsWith q "agent_" then msgs ++ [m] else msgs)) ∧
      (∀ q, alGet queues q = none →
        alGet (route_message queues m) q = none)) := by
  constructor
  · intro hb
    unfold route_message
    rw [if_neg hb]
    exact ⟨alGet_add_to_queue_self _ _ _,
      fun q hq => alGet_add_to_queue_other _ _ _ _ hq⟩
  · intro hb
    unfold route_message
    rw [if_pos hb]
    constructor
    · intro q msgs h
      rw [alGet_broadcast, h]
      rfl
    · intro q h
      rw [alGet_broadcast, h]
      rfl

/-! ## Claim C9: system handoff messages trigger no further handoff -/

theorem evaluate_handoff_mkHandoff (na reason : String) (m : Message)
    (fid : String) (now : Nat) :
    evaluate_handoff (mkHandoffMessage na reason m fid now) = none := rfl

theorem sendCore_fst_no_transform (s : MessageBus) (m : Message) (now : Nat)
    (h : s.auto_transform = false) : (sendCore s m now).1 = m := by
  unfold sendCore
  simp [h]

theorem sendPipeline_eq_of_no_handoff
    (f g : MessageBus → Message → Bool × MessageBus) (now : Nat)
    (s : MessageBus) (m : Message)
    (hev : evaluate_handoff (sendCore s m now).1 = none) :
    sendPipeline f now s m = sendPipeline g now s m := by
  unfold sendPipeline
  by_cases hv : validate_message m
  · simp only [hv, if_true, hev]
  · simp only [hv]
    rfl

theorem sendFuel_succ_eq_one_on_handoff (k now : Nat) (base : MessageBus)
    (useq : Nat) (na reason : String) (orig : Message) (fid : String) :
    sendMessageFuel (k + 1) now
      { base with uuid_seq := useq, auto_transform := false }
      (mkHandoffMessage na reason orig fid now) =
    sendMessageFuel 1 now
      { base with uuid_seq := useq, auto_transform := false }
      (mkHandoffMessage na reason orig fid now) := by
  show sendPipeline (sendMessageFuel k now) now _ _ =
    sendPipeline (sendMessageFuel 0 now) now _ _
  apply sendPipeline_eq_of_no_handoff
  rw [sendCore_fst_no_transform _ _ _ rfl]
  exact evaluate_handoff_mkHandoff na reason orig fid now

/-- C9: a system-authored handoff message emitted by the bus never triggers
another automatic handoff — no agent role can be determined for the sender
`system` and the handoff metadata carries no `agent_role` key, so the
handoff evaluation answers `not required` — and therefore one send needs at
most one level of handoff recursion: any fuel beyond 2 changes nothing, so
one agent message produces at most one automatic handoff and no cascade. -/
theorem system_handoff_never_cascades :
    (∀ (na reason : String) (m : Message) (fid : String) (now : Nat),
      evaluate_handoff (mkHandoffMessage na reason m fid now) = none) ∧
    (∀ (n now : Nat) (s : MessageBus) (m : Message),
      sendMessageFuel (n + 2) now s m = sendMessageFuel 2 now s m) := by
  constructor
  · intro na reason m fid now
    exact evaluate_handoff_mkHandoff na reason m fid now
  · intro n now s m
    show sendPipeline (sendMessageFuel (n + 1) now) now s m =
      sendPipeline (sendMessageFuel 1 now) now s m
    unfold sendPipeline
    by_cases hv : validate_message m
    · simp only [hv, if_true]
      rcases hd : evaluate_handoff (sendCore s m now).1 with _ | d
      · simp only [hd]
      · simp only [hd]
        rw [sendFuel_succ_eq_one_on_handoff]
    · simp only [hv]
      rfl

/-! ## Claim C1: atomicity of send_message -/

theorem add_to_conversation_queues (s : MessageBus) (m : Message) (now : Nat) :
    (add_to_conversation s m now).message_queues = s.message_queues := by
  unfold add_to_conversation
  rcases h : alGet s.conversations
      (conversationId m.sender m.recipient m.session_id) with _ | th <;>
    simp only [h]

theorem add_to_conversation_auto_handoff (s : MessageBus) (m : Message)
    (now : Nat) : (add_to_conversation s m now).auto_handoff = s.auto_handoff := by
  unfold add_to_conversation
  rcases h : alGet s.conversations
      (conversationId m.sender m.recipient m.session_id) with _ | th <;>
    simp only [h]

theorem persist_message_queues (s : MessageBus) (m : Message) :
    (persist_message s m).message_queues = s.message_queues := rfl

theorem sendCore_queues (s : MessageBus) (m : Message) (now : Nat) :
    (sendCore s m now).2.message_queues = s.message_queues := by
  simp only [sendCore]
  split <;>
    simp [apply_ite MessageBus.message_queues, add_to_conversation_queues]

theorem sendCore_auto_handoff (s : MessageBus) (m : Message) (now : Nat) :
    (sendCore s m now).2.auto_handoff = s.auto_handoff := by
  simp only [sendCore]
  split <;>
    simp [apply_ite MessageBus.auto_handoff, add_to_conversation_auto_handoff]

theorem transform_message_recipient (eng : MessageTransformationEngine)
    (m : Message) (fr tr : AgentRole) (tid : String)
    (ctx : List (String × String)) (fid : String) (now : Nat) :
    (transform_message eng m fr tr tid ctx fid now).1.recipient =
      m.recipient := by
  rcases h1 : alGet eng.templates (templateKey fr tr tid) with _ | tmpl
  · unfold transform_message
    simp only [h1]
  · unfold transform_message
    simp only [h1]
    rcases h2 : renderTemplate tmpl.template
        (ensure_template_fields (enrich_context eng m fr tr ctx)
          tmpl.context_fields m) with _ | content <;>
      simp only [h2]

theorem sendCore_fst_recipient (s : MessageBus) (m : Message) (now : Nat) :
    (sendCore s m now).1.recipient = m.recipient := by
  simp only [sendCore]
  by_cases h : s.auto_transform
  · simp only [h, if_true]
    unfold apply_centralized_transformation
    split
    · split
      · exact transform_message_recipient _ _ _ _ _ _ _ _
      · rfl
    · rfl
  · simp [h]

theorem evaluate_handoff_next_agent (m : Message) (d : HandoffDecision)
    (hd : evaluate_handoff m = some d) :
    d.next_agent = AgentRole.frontend ∨ d.next_agent = AgentRole.backend := by
  unfold evaluate_handoff at hd
  rcases hrole : determine_agent_role_from_message m with _ | cur <;>
    simp only [hrole] at hd
  · exact absurd hd (by simp)
  · unfold evaluate_handoff_rules at hd
    rcases hfind : handoff_rules.find?
        (fun r => decide (r.from_role = cur) && r.condition m) with _ | r <;>
      rw [hfind] at hd
    · exact absurd hd (by simp)
    · rw [show Option.map (fun r : HandoffRule =>
          ({ next_agent := r.to_role, reason := r.trigger,
             message_type := r.message_type } : HandoffDecision)) (some r) =
          some { next_agent := r.to_role, reason := r.trigger,
                 message_type := r.message_type } from rfl] at hd
      have hmem := List.mem_of_find?_eq_some hfind
      have hna : d.next_agent = r.to_role := by
        rw [← Option.some.inj hd]
      simp only [handoff_rules, List.mem_cons, List.mem_singleton] at hmem
      rcases hmem with h | h | h | h | h
      · rw [hna, h]; simp
      · rw [hna, h]; simp
      · rw [hna, h]; simp
      · rw [hna, h]; simp
      · exact absurd h (List.not_mem_nil r)

theorem tm_ne_handoff_message (tm : Message) (d : HandoffDecision)
    (hd : evaluate_handoff tm = some d) (na reason : String) (orig : Message)
    (fid : String) (now : Nat) :
    tm ≠ mkHandoffMessage na reason orig fid now := by
  intro heq
  rw [heq, evaluate_handoff_mkHandoff] at hd
  exact Option.noConfusion hd

theorem queueCount_add_to_queue_ne (queues : List (String × List Message))
    (r : String) (x : Message) (q : String) (y : Message) (hxy : y ≠ x) :
    queueCount (add_to_queue queues r x) q y = queueCount queues q y := by
  unfold queueCount
  by_cases hq : q = r
  · subst hq
    rw [alGet_add_to_queue_self]
    simp [List.count_append, List.count_cons, hxy]
  · rw [alGet_add_to_queue_other _ _ _ _ hq]

theorem intendedCount_add_to_queue (queues : List (String × List Message))
    (r : String) (x : Message) (m : Message) (q : String)
    (hna : pyStartsWith r "agent_" = false) :
    intendedCount (add_to_queue queues r x) m q = intendedCount queues m q := by
  unfold intendedCount
  by_cases hb : m.recipient = "both" ∨ m.recipient = "all"
  · rw [if_pos hb, if_pos hb]
    by_cases hq : q = r
    · subst hq
      simp [hna]
    · rw [alGet_add_to_queue_other _ _ _ _ hq]
  · rw [if_neg hb, if_neg hb]

theorem intendedCount_recipient_congr (queues : List (String × List Message))
    (m m' : Message) (q : String) (h : m'.recipient = m.recipient) :
    intendedCount queues m' q = intendedCount queues m q := by
  unfold intendedCount
  rw [h]

theorem route_message_p2p (queues : List (String × List Message)) (m : Message)
    (h : ¬ (m.recipient = "both" ∨ m.recipient = "all")) :
    route_message queues m = add_to_queue queues m.recipient m := by
  unfold route_message
  rw [if_neg h]

theorem sendFuel_one_queues (now : Nat) (base : MessageBus) (useq : Nat)
    (na reason : String) (orig : Message) (fid : String) :
    (sendMessageFuel 1 now { base with uuid_seq := useq, auto_transform := false }
        (mkHandoffMessage na reason orig fid now)).2.message_queues =
      if validate_message (mkHandoffMessage na reason orig fid now) then
        route_message base.message_queues (mkHandoffMessage na reason orig fid now)
      else base.message_queues := by
  show (sendPipeline (sendMessageFuel 0 now) now _ _).2.message_queues = _
  unfold sendPipeline
  by_cases hvh : validate_message (mkHandoffMessage na reason orig fid now)
  · simp only [hvh, if_true]
    have htmh : (sendCore { base with uuid_seq := useq, auto_transform := false }
        (mkHandoffMessage na reason orig fid now) now).1 =
        mkHandoffMessage na reason orig fid now :=
      sendCore_fst_no_transform _ _ _ rfl
    simp only [htmh, evaluate_handoff_mkHandoff, ite_self,
      persist_message_queues]
    rw [sendCore_queues]
  · simp only [hvh]
    rfl

theorem send_message_queues_characterization (now : Nat) (s : MessageBus)
    (m : Message) (hv : validate_message m = true) :
    (send_message now s m).2.message_queues =
      route_message
        (if (sendCore s m now).2.auto_handoff then
          (match evaluate_handoff (sendCore s m now).1 with
           | none => (sendCore s m now).2.message_queues
           | some d =>
               if validate_message (mkHandoffMessage d.next_agent.value
                   d.reason (sendCore s m now).1
                   (freshUuid (sendCore s m now).2.uuid_seq) now) then
                 route_message (sendCore s m now).2.message_queues
                   (mkHandoffMessage d.next_agent.value d.reason
                     (sendCore s m now).1
                     (freshUuid (sendCore s m now).2.uuid_seq) now)
               else (sendCore s m now).2.message_queues)
         else (sendCore s m now).2.message_queues)
        (sendCore s m now).1 := by
  show (sendPipeline (sendMessageFuel 1 now) now s m).2.message_queues = _
  unfold sendPipeline
  simp only [hv, if_true, persist_message_queues]
  by_cases hah : (sendCore s m now).2.auto_handoff = true
  · rw [if_pos hah, if_pos hah]
    rcases hd : evaluate_handoff (sendCore s m now).1 with _ | d <;>
      simp only [hd]
    rw [sendFuel_one_queues]
  · rw [if_neg hah, if_neg hah]

/-- C1: for every message, `send_message` either returns False with the bus
state — threads, history, queues, everything — exactly as it was (validation
is the only failing path and it precedes every mutation), or returns True
and the message, as possibly transformed by the pipeline, lands in exactly
the intended recipient queues: once in each queue `intendedCount` names, and
its count anywhere else is untouched (the extra system handoff message a
send may emit is a different message and never lands as the sent one). -/
theorem send_message_atomic (now : Nat) (s : MessageBus) (m : Message) :
    ((send_message now s m).1 = false → (send_message now s m).2 = s) ∧
    ((send_message now s m).1 = true → ∀ q,
      queueCount (send_message now s m).2.message_queues q
          (sendCore s m now).1 =
        queueCount s.message_queues q (sendCore s m now).1 +
          intendedCount s.message_queues m q) := by
  by_cases hv : validate_message m = true
  · have hres : (send_message now s m).1 = true := by
      show (sendPipeline (sendMessageFuel 1 now) now s m).1 = true
      unfold sendPipeline
      simp only [hv, if_true]
    constructor
    · intro hf
      rw [hres] at hf
      exact absurd hf (by decide)
    · intro _ q
      rw [send_message_queues_characterization now s m hv]
      have hrec : (sendCore s m now).1.recipient = m.recipient :=
        sendCore_fst_recipient s m now
      by_cases hah : (sendCore s m now).2.auto_handoff = true
      · rw [if_pos hah]
        rcases hd : evaluate_handoff (sendCore s m now).1 with _ | d <;>
          simp only [hd]
        · rw [queueCount_route_self, sendCore_queues,
            intendedCount_recipient_congr _ _ _ _ hrec]
        · have hne : (sendCore s m now).1 ≠ mkHandoffMessage d.next_agent.value
              d.reason (sendCore s m now).1
              (freshUuid (sendCore s m now).2.uuid_seq) now :=
            tm_ne_handoff_message _ d hd _ _ _ _ _
          have hna := evaluate_handoff_next_agent _ d hd
          have hrcp : ¬ ((mkHandoffMessage d.next_agent.value d.reason
              (sendCore s m now).1 (freshUuid (sendCore s m now).2.uuid_seq)
              now).recipient = "both" ∨
              (mkHandoffMessage d.next_agent.value d.reason
              (sendCore s m now).1 (freshUuid (sendCore s m now).2.uuid_seq)
              now).recipient = "all") := by
            show ¬ (d.next_agent.value = "both" ∨ d.next_agent.value = "all")
            rcases hna with h | h <;> rw [h] <;> decide
          have hsw : pyStartsWith (mkHandoffMessage d.next_agent.value
              d.reason (sendCore s m now).1
              (freshUuid (sendCore s m now).2.uuid_seq) now).recipient
              "agent_" = false := by
            show pyStartsWith d.next_agent.value "agent_" = false
            rcases hna with h | h <;> rw [h] <;> decide
          by_cases hvh : validate_message (mkHandoffMessage d.next_agent.value
              d.reason (sendCore s m now).1
              (freshUuid (sendCore s m now).2.uuid_seq) now) = true
          · rw [if_pos hvh, route_message_p2p _ _ hrcp,
              queueCount_route_self,
              queueCount_add_to_queue_ne _ _ _ _ _ hne,
              intendedCount_add_to_queue _ _ _ _ _ hsw,
              sendCore_queues,
              intendedCount_recipient_congr _ _ _ _ hrec]
          · rw [if_neg hvh, queueCount_route_self, sendCore_queues,
              intendedCount_recipient_congr _ _ _ _ hrec]
      · rw [if_neg hah, queueCount_route_self, sendCore_queues,
          intendedCount_recipient_congr _ _ _ _ hrec]
  · have hvf : validate_message m = false := by
      cases h : validate_message m
      · rfl
      · exact absurd h hv
    have hfalse : send_message now s m = (false, s) := by
      show sendPipeline (sendMessageFuel 1 now) now s m = (false, s)
      unfold sendPipeline
      simp only [hvf]
      rfl
    constructor
    · intro _
      rw [hfalse]
    · intro ht
      rw [hfalse] at ht
      simp at ht

/-! ## Claim C4: every declared template field resolves to a non-empty value -/

theorem alGet_mem {α β : Type} [DecidableEq α] (l : List (α × β)) (k : α)
    (v : β) (h : alGet l k = some v) : (k, v) ∈ l := by
  induction l with
  | nil => simp [alGet] at h
  | cons hd tl ih =>
      obtain ⟨k₀, v₀⟩ := hd
      by_cases h₀ : k₀ = k
      · subst h₀
        simp only [alGet, if_pos rfl] at h
        simp [Option.some.inj h]
      · simp only [alGet, if_neg h₀] at h
        exact List.mem_cons_of_mem _ (ih h)

set_option maxRecDepth 8000 in
theorem defaultValues_values_ne_empty :
    ∀ kv ∈ defaultValues, kv.2 ≠ "" := by decide

set_option maxRecDepth 8000 in
theorem set_default_values_nil : set_default_values [] = defaultValues := by
  decide

theorem length_ne_zero_of_bracket (f : String) :
    ("[" ++ f ++ " to be determined]") ≠ "" := by
  intro h
  have hl := congrArg String.length h
  rw [String.length_append, String.length_append] at hl
  have h1 : String.length "[" = 1 := rfl
  have h2 : String.length " to be determined]" = 18 := rfl
  have h0 : String.length "" = 0 := rfl
  rw [h1, h2, h0] at hl
  omega

theorem defaultFallback_ne_empty (field : String) :
    defaultFallback field ≠ "" := by
  unfold defaultFallback
  rcases h : alGet (set_default_values []) field with _ | v
  · simpa using length_ne_zero_of_bracket field
  · have hm := alGet_mem _ _ _ h
    rw [set_default_values_nil] at hm
    simpa using defaultValues_values_ne_empty _ hm

theorem get_intelligent_default_ne_empty (field : String) (m : Message)
    (ctx : List (String × String)) :
    get_intelligent_default field m ctx ≠ "" := by
  unfold get_intelligent_default
  split
  · split
    · decide
    · split
      · decide
      · split
        · decide
        · exact defaultFallback_ne_empty field
  · split
    · split
      · decide
      · split
        · decide
        · split
          · decide
          · exact defaultFallback_ne_empty field
    · exact defaultFallback_ne_empty field

theorem fillTemplateField_self (safe : List (String × String)) (field : String)
    (m : Message) (ctx : List (String × String)) :
    ∃ v, alGet (fillTemplateField safe field m ctx) field = some v ∧
      v ≠ "" := by
  unfold fillTemplateField
  split
  · rename_i ev heq
    by_cases hev : ev ≠ ""
    · rw [if_pos hev]
      exact ⟨ev, alGet_alSet_same _ _ _, hev⟩
    · rw [if_neg hev]
      exact ⟨_, alGet_alSet_same _ _ _,
        get_intelligent_default_ne_empty field m ctx⟩
  · exact ⟨_, alGet_alSet_same _ _ _,
      get_intelligent_default_ne_empty field m ctx⟩

theorem fillTemplateField_other (safe : List (String × String))
    (field q : String) (m : Message) (ctx : List (String × String))
    (hq : q ≠ field) :
    alGet (fillTemplateField safe field m ctx) q = alGet safe q := by
  unfold fillTemplateField
  split
  · rename_i ev heq
    by_cases hev : ev ≠ ""
    · rw [if_pos hev]
      exact alGet_alSet_other _ _ _ _ hq
    · rw [if_neg hev]
      exact alGet_alSet_other _ _ _ _ hq
  · exact alGet_alSet_other _ _ _ _ hq

theorem ensureFieldStep_self (m : Message) (ctx safe : List (String × String))
    (field : String) :
    ∃ v, alGet (ensureFieldStep m ctx safe field) field = some v ∧ v ≠ "" := by
  unfold ensureFieldStep
  split
  · rename_i v heq
    by_cases hv : v ≠ ""
    · rw [if_pos hv]
      exact ⟨v, heq, hv⟩
    · rw [if_neg hv]
      exact fillTemplateField_self safe field m ctx
  · exact fillTemplateField_self safe field m ctx

theorem ensureFieldStep_preserves (m : Message)
    (ctx safe : List (String × String)) (g f : String) (v : String)
    (hf : alGet safe f = some v) (hv : v ≠ "") :
    ∃ v', alGet (ensureFieldStep m ctx safe g) f = some v' ∧ v' ≠ "" := by
  by_cases hg : f = g
  · subst hg
    obtain ⟨v', hv', hne'⟩ := ensureFieldStep_self m ctx safe f
    exact ⟨v', hv', hne'⟩
  · unfold ensureFieldStep
    split
    · rename_i w heq
      by_cases hw : w ≠ ""
      · rw [if_pos hw]
        exact ⟨v, hf, hv⟩
      · rw [if_neg hw, fillTemplateField_other _ _ _ _ _ hg]
        exact ⟨v, hf, hv⟩
    · rw [fillTemplateField_other _ _ _ _ _ hg]
      exact ⟨v, hf, hv⟩

theorem ensure_fold_preserves (m : Message) (ctx : List (String × String))
    (l : List String) (safe : List (String × String)) (f : String)
    (v : String) (hf : alGet safe f = some v) (hv : v ≠ "") :
    ∃ v', alGet (l.foldl (ensureFieldStep m ctx) safe) f = some v' ∧
      v' ≠ "" := by
  induction l generalizing safe v with
  | nil => exact ⟨v, hf, hv⟩
  | cons g rest ih =>
      obtain ⟨v', hf', hv'⟩ := ensureFieldStep_preserves m ctx safe g f v hf hv
      exact ih (ensureFieldStep m ctx safe g) v' hf' hv'

theorem ensure_fold_mem (m : Message) (ctx : List (String × String))
    (l : List String) (init : List (String × String)) (f : String)
    (hmem : f ∈ l) :
    ∃ v, alGet (l.foldl (ensureFieldStep m ctx) init) f = some v ∧
      v ≠ "" := by
  induction l generalizing init with
  | nil => cases hmem
  | cons g rest ih =>
      rcases List.mem_cons.mp hmem with hfg | hfr
      · subst hfg
        obtain ⟨v, hv, hne⟩ := ensureFieldStep_self m ctx init f
        exact ensure_fold_preserves m ctx rest _ f v hv hne
      · exact ih (ensureFieldStep m ctx init g) hfr

theorem ensure_template_fields_nonempty (ctx : List (String × String))
    (required : List String) (m : Message) (f : String) (hmem : f ∈ required) :
    ∃ v, alGet (ensure_template_fields ctx required m) f = some v ∧
      v ≠ "" :=
  ensure_fold_mem m ctx required ctx f hmem

/-- The field placeholders occurring in a template body, in order. -/
def chunkFields : List TemplateChunk → List String
  | [] => []
  | TemplateChunk.lit _ :: rest => chunkFields rest
  | TemplateChunk.field f :: rest => f :: chunkFields rest

theorem render_some_of_covered (chunks : List TemplateChunk)
    (ctx : List (String × String))
    (h : ∀ f ∈ chunkFields chunks, ∃ v, alGet ctx f = some v) :
    ∃ s, renderTemplate chunks ctx = some s := by
  induction chunks with
  | nil => exact ⟨"", rfl⟩
  | cons c rest ih =>
      cases c with
      | lit t =>
          obtain ⟨s, hs⟩ := ih (fun f hf => h f hf)
          refine ⟨t ++ s, ?_⟩
          unfold renderTemplate at hs ⊢
          rw [List.foldr_cons, hs]
      | field g =>
          obtain ⟨s, hs⟩ := ih (fun f hf => h f (List.mem_cons_of_mem g hf))
          obtain ⟨v, hv⟩ := h g (List.mem_cons_self g _)
          refine ⟨v ++ s, ?_⟩
          unfold renderTemplate at hs ⊢
          rw [List.foldr_cons, hs]
          show (match alGet ctx g with
            | some w => some (w ++ s)
            | none => none) = some (v ++ s)
          rw [hv]

def mPlainDemo : Message :=
  { type := MessageType.task
    sender := "agent_a"
    recipient := "agent_b"
    content := "hello"
    session_id := "s1"
    id := "m1"
    timestamp := 3 }

/-- A template whose body uses a placeholder that is neither declared in its
`context_fields` nor a key of the defaults table nor one of the basic
context keys. -/
def tmplUncovered : MessageTransformationTemplate :=
  { from_role := AgentRole.frontend
    to_role := AgentRole.backend
    template := [TemplateChunk.lit "value: ",
      TemplateChunk.field "zzz_uncovered"]
    context_fields := [] }

/-- An engine holding only `tmplUncovered`, filed under the key
`add_template` would use. -/
def engUncovered : MessageTransformationEngine :=
  { templates :=
      [(templateKey AgentRole.frontend AgentRole.backend "bad", tmplUncovered)]
    context_providers := [] }

set_option maxRecDepth 16000 in
/-- C4 counterexample: a template whose body placeholder is neither declared
in `context_fields` nor covered by the enriched/default context is not
formatted at all — `str.format` raises KeyError, `transform_message` catches
it and hands back the original message untransformed — so transforming with
no caller-supplied context does not always produce a fully formatted string
with every field filled. -/
theorem template_with_uncovered_field_not_formatted :
    transform_message engUncovered mPlainDemo AgentRole.frontend
      AgentRole.backend "bad" [] "u1" 5 = (mPlainDemo, false) ∧
    renderTemplate tmplUncovered.template
      (ensure_template_fields (enrich_context engUncovered mPlainDemo
          AgentRole.frontend AgentRole.backend [])
        tmplUncovered.context_fields mPlainDemo) = none := by
  exact ⟨by decide, by decide⟩

/-- C4 (amended): transforming with no caller-supplied context fills every
declared `context_fields` entry with a non-empty value, and whenever every
body placeholder of the template is bound in the resulting safe context —
whether declared, a basic context key, or a key of the defaults table — the
format call succeeds and the transformed message carries the fully formatted
string.  A body placeholder bound nowhere instead raises a KeyError that
`transform_message` catches, returning the original message (so no
formatting error surfaces, but no formatted string is produced either). -/
theorem template_fields_resolve_amended
    (eng : MessageTransformationEngine) (m : Message) (fr tr : AgentRole)
    (template_id : String) (tmpl : MessageTransformationTemplate)
    (freshId : String) (now : Nat)
    (hfind : alGet eng.templates (templateKey fr tr template_id) = some tmpl)
    (hcov : ∀ f ∈ chunkFields tmpl.template,
      (alGet (ensure_template_fields (enrich_context eng m fr tr [])
        tmpl.context_fields m) f).isSome = true) :
    (∀ f ∈ tmpl.context_fields,
        ∃ v, alGet (ensure_template_fields (enrich_context eng m fr tr [])
          tmpl.context_fields m) f = some v ∧ v ≠ "") ∧
    ∃ content,
      renderTemplate tmpl.template
          (ensure_template_fields (enrich_context eng m fr tr [])
            tmpl.context_fields m) = some content ∧
      (transform_message eng m fr tr template_id [] freshId now).2 = true ∧
      (transform_message eng m fr tr template_id [] freshId now).1.content =
        content := by
  constructor
  · intro f hf
    exact ensure_template_fields_nonempty _ _ _ _ hf
  · have hcov' : ∀ f ∈ chunkFields tmpl.template,
        ∃ v, alGet (ensure_template_fields (enrich_context eng m fr tr [])
          tmpl.context_fields m) f = some v := by
      intro f hf
      exact Option.isSome_iff_exists.mp (hcov f hf)
    obtain ⟨content, hc⟩ := render_some_of_covered _ _ hcov'
    refine ⟨content, hc, ?_, ?_⟩
    · unfold transform_message
      simp only [hfind, hc]
    · unfold transform_message
      simp only [hfind, hc]

/-- The first built-in template, as `__init__` registers it.  Its body uses
the placeholder endpoint_type, which its `context_fields` do not declare;
that placeholder is covered by the defaults table instead. -/
def tmplApiRequest : MessageTransformationTemplate :=
  { from_role := AgentRole.frontend
    to_role := AgentRole.backend
    template := frontendToBackendApiRequestBody
    context_fields := frontendToBackendApiRequestFields }

set_option maxRecDepth 16000 in
/-- C4 witness: the built-in frontend-to-backend api-request template, on
the freshly initialised engine with no supplied context.  Its undeclared
body placeholder endpoint_type is bound by the defaults table, so the
coverage hypothesis holds and the transformation formats fully. -/
theorem template_fields_resolve_amended_witness :
    (∀ f ∈ tmplApiRequest.context_fields,
        ∃ v, alGet (ensure_template_fields (enrich_context initialEngine
            mPlainDemo AgentRole.frontend AgentRole.backend [])
          tmplApiRequest.context_fields mPlainDemo) f = some v ∧ v ≠ "") ∧
    ∃ content,
      renderTemplate tmplApiRequest.template
          (ensure_template_fields (enrich_context initialEngine mPlainDemo
              AgentRole.frontend AgentRole.backend [])
            tmplApiRequest.context_fields mPlainDemo) = some content ∧
      (transform_message initialEngine mPlainDemo AgentRole.frontend
          AgentRole.backend "frontend_to_backend_api_request" [] "u1" 5).2 =
        true ∧
      (transform_message initialEngine mPlainDemo AgentRole.frontend
          AgentRole.backend "frontend_to_backend_api_request" [] "u1"
        5).1.content = content :=
  template_fields_resolve_amended initialEngine mPlainDemo AgentRole.frontend
    AgentRole.backend "frontend_to_backend_api_request" tmplApiRequest "u1" 5
    rfl (by decide)
